import Mathlib

/-!
Verification of the NCC drill posture evaluation backend.

The Python source computes geometry over IEEE floats; the embedding uses
exact rationals.  The two transcendental operations the source relies on
(`math.degrees(math.atan2 …)` in `pose_utils.calculate_angle`, `np.std` in
`salute_analysis.analyze_salute`) are passed in as explicit function
parameters (`atan2d`, an atan2-in-degrees, and `sq`, a square root), so
every definition stays executable; theorems that need analytic facts about
them (the range of atan2, its exact values on the coordinate axes,
`sqrt 0 = 0`) state those facts as hypotheses, all of which hold for the
real functions the source calls.
-/

namespace NCC

/-- A 2D point, as the `(x, y)` tuples fed to `calculate_angle`. -/
abbrev Pt := ℚ × ℚ

/-- Embedding of `pose_utils.calculate_angle`: angle at vertex `b` between
rays `b→a` and `b→c`.  `atan2d y x` stands for `math.degrees(math.atan2(y, x))`;
the source computes the two atan2 values, subtracts, converts to degrees,
takes the absolute value, and folds results above 180 as `360 - ang`. -/
def calculate_angle (atan2d : ℚ → ℚ → ℚ) (a b c : Pt) : ℚ :=
  let ang := |atan2d (c.2 - b.2) (c.1 - b.1) - atan2d (a.2 - b.2) (a.1 - b.1)|
  if ang > 180 then 360 - ang else ang

/-- The facts about `math.degrees(math.atan2 y x)` that the development
relies on: its range is `(-180, 180]`, and its exact values at the origin
and on the four coordinate half-axes (`math.atan2(0.0, 0.0) = 0.0` in
Python, and the axis directions give exactly 0, 90, 180, -90 degrees). -/
def Atan2DegFacts (f : ℚ → ℚ → ℚ) : Prop :=
  (∀ y x, -180 < f y x ∧ f y x ≤ 180) ∧
  f 0 0 = 0 ∧
  (∀ x, 0 < x → f 0 x = 0) ∧
  (∀ y, 0 < y → f y 0 = 90) ∧
  (∀ y, y < 0 → f y 0 = -90) ∧
  (∀ x, x < 0 → f 0 x = 180)

/-- A concrete instantiation of the atan2-in-degrees parameter: it returns
the exact `math.degrees(math.atan2 y x)` value at the origin and on the
coordinate half-axes (the only inputs at which concrete statements below
evaluate it), and 0 elsewhere, which keeps it inside atan2's range. -/
def atan2dAxes (y x : ℚ) : ℚ :=
  if 0 < y ∧ x = 0 then 90
  else if y < 0 ∧ x = 0 then -90
  else if x < 0 ∧ y = 0 then 180
  else 0

/-- A single MediaPipe landmark as the drill code reads it: normalized
coordinates plus a visibility confidence.  The source's check
`lmk_enum.value >= len(lm)` for an absent landmark coincides with the
low-visibility rejection, so an absent point is modelled as one whose
visibility is below the 0.5 gate. -/
structure Landmark where
  x : ℚ
  y : ℚ
  visibility : ℚ
deriving DecidableEq

/-- The `(x, y)` tuple extracted from a landmark, as the source builds it. -/
def Landmark.pt (l : Landmark) : Pt := (l.x, l.y)

/-! ## High-leg march (`src/drills/high_leg_march.py`) -/

def HIGH_LEG_Y_TOLERANCE : ℚ := 4/100

def HIP_FLEXION_ANGLE_RANGE : ℚ × ℚ := (80, 120)

def KNEE_BEND_ANGLE_RANGE : ℚ × ℚ := (80, 110)

def STATIONARY_LEG_STRAIGHT : ℚ := 170

def FOOT_ANGLE_RANGE : ℚ × ℚ := (70, 110)

/-- The twelve landmarks `_get_posture_feedback` requires. -/
structure HLFrame where
  rShoulder : Landmark
  lShoulder : Landmark
  rHip : Landmark
  lHip : Landmark
  rKnee : Landmark
  lKnee : Landmark
  rAnkle : Landmark
  lAnkle : Landmark
  rHeel : Landmark
  lHeel : Landmark
  rFootIndex : Landmark
  lFootIndex : Landmark
deriving DecidableEq

/-- The visibility gate of `_get_posture_feedback`: some required landmark
has `visibility < 0.5`. -/
def HLFrame.lowVis (f : HLFrame) : Bool :=
  decide (f.rShoulder.visibility < 1/2) || decide (f.lShoulder.visibility < 1/2) ||
  decide (f.rHip.visibility < 1/2) || decide (f.lHip.visibility < 1/2) ||
  decide (f.rKnee.visibility < 1/2) || decide (f.lKnee.visibility < 1/2) ||
  decide (f.rAnkle.visibility < 1/2) || decide (f.lAnkle.visibility < 1/2) ||
  decide (f.rHeel.visibility < 1/2) || decide (f.lHeel.visibility < 1/2) ||
  decide (f.rFootIndex.visibility < 1/2) || decide (f.lFootIndex.visibility < 1/2)

/-- The four per-frame success flags of the high-leg march criterion set. -/
structure HLFlags where
  kneeHeight : Bool
  kneeAngle : Bool
  stationaryLeg : Bool
  footAngle : Bool
deriving DecidableEq

/-- The failure identifiers `_get_posture_feedback` appends to `fail_points`. -/
inductive HLFailLabel
  | KNEE_HEIGHT
  | KNEE_ANGLE
  | STATIONARY_LEG
  | FOOT_ANGLE
deriving DecidableEq

/-- The `fail_points` list as the source builds it: one label per unmet
check, appended in the fixed source order. -/
def HLFlags.failPoints (s : HLFlags) : List HLFailLabel :=
  (if s.kneeHeight then [] else [.KNEE_HEIGHT]) ++
  (if s.kneeAngle then [] else [.KNEE_ANGLE]) ++
  (if s.stationaryLeg then [] else [.STATIONARY_LEG]) ++
  (if s.footAngle then [] else [.FOOT_ANGLE])

/-- The angles dictionary returned on a valid evaluation. -/
structure HLAngles where
  hipFlexion : ℚ
  kneeBend : ℚ
  supportKnee : ℚ
  footAngle : ℚ
deriving DecidableEq

/-- Result of `_get_posture_feedback`: the two `success_flags is None`
rejections (low visibility, no lift) or a scored evaluation. -/
inductive HLRes
  | lowVisibility
  | noLift
  | scored (flags : HLFlags) (angles : HLAngles)
deriving DecidableEq

/-- Embedding of `_get_posture_feedback` (high_leg_march.py, lines 153-237):
visibility gate, dynamic lifted-leg resolution with the 0.04 hysteresis
tolerance, then the four independent checks. -/
def getPostureFeedback (atan2d : ℚ → ℚ → ℚ) (f : HLFrame) : HLRes :=
  if f.lowVis then .lowVisibility
  else
    let isLeftLifted : Bool := decide (f.lKnee.y < f.rKnee.y - HIGH_LEG_Y_TOLERANCE)
    let isRightLifted : Bool := decide (f.rKnee.y < f.lKnee.y - HIGH_LEG_Y_TOLERANCE)
    if !(isLeftLifted || isRightLifted) then .noLift
    else
      let activeHip := if isLeftLifted then f.lHip else f.rHip
      let activeKnee := if isLeftLifted then f.lKnee else f.rKnee
      let activeAnkle := if isLeftLifted then f.lAnkle else f.rAnkle
      let supportHip := if isLeftLifted then f.rHip else f.lHip
      let supportKnee := if isLeftLifted then f.rKnee else f.lKnee
      let supportAnkle := if isLeftLifted then f.rAnkle else f.lAnkle
      let shldrForActiveLeg := if isLeftLifted then f.lShoulder else f.rShoulder
      let activeHeel := if isLeftLifted then f.lHeel else f.rHeel
      let activeFootIndex := if isLeftLifted then f.lFootIndex else f.rFootIndex
      let kneeHeightOk : Bool := decide (activeKnee.y ≤ activeHip.y + HIGH_LEG_Y_TOLERANCE)
      let hipFlexionAngle := calculate_angle atan2d shldrForActiveLeg.pt activeHip.pt activeKnee.pt
      let kneeBendAngle := calculate_angle atan2d activeHip.pt activeKnee.pt activeAnkle.pt
      let kneeAngleOk : Bool :=
        decide (HIP_FLEXION_ANGLE_RANGE.1 ≤ hipFlexionAngle ∧
          hipFlexionAngle ≤ HIP_FLEXION_ANGLE_RANGE.2 ∧
          KNEE_BEND_ANGLE_RANGE.1 ≤ kneeBendAngle ∧
          kneeBendAngle ≤ KNEE_BEND_ANGLE_RANGE.2)
      let supportKneeAngle := calculate_angle atan2d supportHip.pt supportKnee.pt supportAnkle.pt
      let stationaryLegOk : Bool := decide (supportKneeAngle > STATIONARY_LEG_STRAIGHT)
      let footAngle := calculate_angle atan2d activeHeel.pt activeAnkle.pt activeFootIndex.pt
      let footAngleOk : Bool :=
        decide (FOOT_ANGLE_RANGE.1 ≤ footAngle ∧ footAngle ≤ FOOT_ANGLE_RANGE.2)
      .scored ⟨kneeHeightOk, kneeAngleOk, stationaryLegOk, footAngleOk⟩
        ⟨hipFlexionAngle, kneeBendAngle, supportKneeAngle, footAngle⟩

/-- The loop state of `analyze_high_leg_march` (tracking flags, best angle
values, exemplar frames).  The exemplar fields keep both the stored image
(modelled by the frame's landmark content) and the index of the video frame
it was copied from; `last_known_landmarks` and the loop's `image` variable
are recovered from the session list at report time. -/
structure HLState where
  kneeHeightSucceeded : Bool
  kneeAngleSucceeded : Bool
  stationaryLegSucceeded : Bool
  footAngleSucceeded : Bool
  bestHipFlexionOverall : ℚ
  bestKneeBendOverall : ℚ
  bestFootAngleOverall : ℚ
  foundValidPose : Bool
  bestFailureFrame : Option HLFrame
  bestFailureIdx : Option ℕ
  bestSuccessFrame : Option HLFrame
  bestSuccessIdx : Option ℕ
  minFailuresInFrame : Option ℕ
  bestFailurePointsForFrame : List HLFailLabel
  anglesForAnnotation : Option HLAngles
deriving DecidableEq

/-- Initial tracking state (flags false, best values 0, `min_failures_in_frame`
infinite, no exemplars). -/
def HLState.init : HLState :=
  ⟨false, false, false, false, 0, 0, 0, false, none, none, none, none, none, [], none⟩

/-- `num_failures <= min_failures_in_frame`, where `none` is `float('inf')`. -/
def leInfty (n : ℕ) : Option ℕ → Bool
  | none => true
  | some m => decide (n ≤ m)

/-- The best-angle update of `analyze_high_leg_march`: keep the value
closest to 90, with 0 meaning "none recorded yet". -/
def updateBestAngle (best cur : ℚ) : ℚ :=
  if best = 0 ∨ |cur - 90| < |best - 90| then cur else best

/-- The state updates `analyze_high_leg_march` performs on a frame whose
evaluation was scored (lines 312-338): cumulative flag ORs, first success
exemplar, best-angle tracking, failure exemplar on `<=` the running
minimum. -/
def hlStepScored (i : ℕ) (s : HLState) (f : HLFrame) (flags : HLFlags) (angles : HLAngles) :
    HLState :=
  let failPts := flags.failPoints
  let n := failPts.length
  let s1 : HLState := { s with
    foundValidPose := true
    kneeHeightSucceeded := s.kneeHeightSucceeded || flags.kneeHeight
    kneeAngleSucceeded := s.kneeAngleSucceeded || flags.kneeAngle
    stationaryLegSucceeded := s.stationaryLegSucceeded || flags.stationaryLeg
    footAngleSucceeded := s.footAngleSucceeded || flags.footAngle }
  let s2 : HLState :=
    if n = 0 ∧ s1.bestSuccessFrame.isNone then
      { s1 with bestSuccessFrame := some f, bestSuccessIdx := some i
                anglesForAnnotation := some angles }
    else s1
  let s3 : HLState := { s2 with
    bestHipFlexionOverall := updateBestAngle s2.bestHipFlexionOverall angles.hipFlexion
    bestKneeBendOverall := updateBestAngle s2.bestKneeBendOverall angles.kneeBend
    bestFootAngleOverall := updateBestAngle s2.bestFootAngleOverall angles.footAngle }
  if 0 < n ∧ leInfty n s3.minFailuresInFrame then
    { s3 with minFailuresInFrame := some n
              bestFailureFrame := some f
              bestFailureIdx := some i
              bestFailurePointsForFrame := failPts
              anglesForAnnotation := some angles }
  else s3

/-- The `analyze_high_leg_march` loop body on a frame with landmarks:
rejected evaluations (`success_flags is None`) are skipped via `continue`,
scored ones update the tracking state. -/
def hlStepFrame (atan2d : ℚ → ℚ → ℚ) (i : ℕ) (s : HLState) (f : HLFrame) : HLState :=
  match getPostureFeedback atan2d f with
  | .lowVisibility => s
  | .noLift => s
  | .scored flags angles => hlStepScored i s f flags angles

/-- One iteration of the `analyze_high_leg_march` video loop for the frame
at position `i` of the session; `none` models a frame in which the pose
estimator found no landmarks. -/
def hlStep (atan2d : ℚ → ℚ → ℚ) (i : ℕ) (s : HLState) (of : Option HLFrame) : HLState :=
  match of with
  | none => s
  | some f => hlStepFrame atan2d i s f

/-- Fold of `hlStep` over the session, threading the frame position. -/
def hlAggregateFrom (atan2d : ℚ → ℚ → ℚ) (i : ℕ) (s : HLState) :
    List (Option HLFrame) → HLState
  | [] => s
  | f :: fs => hlAggregateFrom atan2d (i + 1) (hlStep atan2d i s f) fs

/-- The tracking state after `analyze_high_leg_march` has consumed a whole
session of frames. -/
def hlAggregate (atan2d : ℚ → ℚ → ℚ) (frames : List (Option HLFrame)) : HLState :=
  hlAggregateFrom atan2d 0 HLState.init frames

/-- The cumulative per-criterion flags of a high-leg state. -/
def HLState.cumFlags (s : HLState) : HLFlags :=
  ⟨s.kneeHeightSucceeded, s.kneeAngleSucceeded, s.stationaryLegSucceeded, s.footAngleSucceeded⟩

/-- The finalized high-leg march report: either the terminal
"Analysis Failed: No valid High Leg March posture detected." result, or the
composed verdict with per-criterion breakdown and chosen annotation frame. -/
inductive HLReport
  | analysisFailed
  | composed (overall : Bool) (cum : HLFlags) (finalFailPoints : List HLFailLabel)
      (annotIdx : Option ℕ) (annotFailPoints : List HLFailLabel)
      (bestAngles : ℚ × ℚ × ℚ)
deriving DecidableEq

/-- Report compilation of `analyze_high_leg_march` (lines 343-371): terminal
failure when no valid pose was found, otherwise the overall verdict from the
cumulative flags and the representative-frame choice (success exemplar,
else failure exemplar, else the last frame read when landmarks were ever
seen). -/
def hlReport (atan2d : ℚ → ℚ → ℚ) (frames : List (Option HLFrame)) : HLReport :=
  let s := hlAggregate atan2d frames
  if !s.foundValidPose then .analysisFailed
  else
    let finalFails := s.cumFlags.failPoints
    let overall := finalFails.isEmpty
    let fallback : Option ℕ × List HLFailLabel :=
      if frames.any Option.isSome ∧ frames ≠ [] then
        (some (frames.length - 1), finalFails)
      else (none, [])
    let pick : Option ℕ × List HLFailLabel :=
      if overall then
        match s.bestSuccessIdx with
        | some i => (some i, [])
        | none => fallback
      else
        match s.bestFailureIdx with
        | some i => (some i, s.bestFailurePointsForFrame)
        | none => fallback
    .composed overall s.cumFlags finalFails pick.1 pick.2
      (s.bestHipFlexionOverall, s.bestKneeBendOverall, s.bestFootAngleOverall)

/-! ## Salute (`src/drills/salute_analysis.py`) -/

def FINGER_Y_ALIGNMENT_TOLERANCE : ℚ := 8/100

def FINGER_X_ALIGNMENT_TOLERANCE : ℚ := 12/100

def WRIST_RIGIDITY_MIN_ANGLE : ℚ := 160

def ELBOW_RAISE_ANGLE_RANGE : ℚ × ℚ := (160, 180)

def HEAD_STABILITY_VERY_GOOD_THRESHOLD : ℚ := 2/100

def HEAD_STABILITY_MODERATE_THRESHOLD : ℚ := 5/100

/-- The seven landmarks `_get_salute_posture_feedback` requires. -/
structure SaluteFrame where
  rEar : Landmark
  rEyeOuter : Landmark
  rShoulder : Landmark
  rElbow : Landmark
  rWrist : Landmark
  rIndex : Landmark
  nose : Landmark
deriving DecidableEq

/-- The salute visibility gate: some required landmark has `visibility < 0.5`. -/
def SaluteFrame.lowVis (f : SaluteFrame) : Bool :=
  decide (f.rEar.visibility < 1/2) || decide (f.rEyeOuter.visibility < 1/2) ||
  decide (f.rShoulder.visibility < 1/2) || decide (f.rElbow.visibility < 1/2) ||
  decide (f.rWrist.visibility < 1/2) || decide (f.rIndex.visibility < 1/2) ||
  decide (f.nose.visibility < 1/2)

/-- The three per-frame success flags of the salute criterion set. -/
structure SaluteFlags where
  fingerPlacement : Bool
  handForm : Bool
  elbowRaise : Bool
deriving DecidableEq

/-- The failure identifiers `_get_salute_posture_feedback` appends. -/
inductive SaluteFailLabel
  | FINGER_POS
  | HAND_FORM
  | ELBOW_RAISE
deriving DecidableEq

/-- The salute `fail_points` list, in the fixed source order. -/
def SaluteFlags.failPoints (s : SaluteFlags) : List SaluteFailLabel :=
  (if s.fingerPlacement then [] else [.FINGER_POS]) ++
  (if s.handForm then [] else [.HAND_FORM]) ++
  (if s.elbowRaise then [] else [.ELBOW_RAISE])

/-- Result of `_get_salute_posture_feedback`. -/
inductive SaluteRes
  | lowVisibility
  | scored (flags : SaluteFlags)
deriving DecidableEq

/-- Embedding of `_get_salute_posture_feedback` (salute_analysis.py, lines
117-177): visibility gate, then the three independent checks.  Note the
nose's coordinates are never read, only its visibility. -/
def getSalutePostureFeedback (atan2d : ℚ → ℚ → ℚ) (f : SaluteFrame) : SaluteRes :=
  if f.lowVis then .lowVisibility
  else
    let targetY := f.rEyeOuter.y
    let targetX := (f.rEyeOuter.x + f.rEar.x) / 2
    let yPosDeviation := |f.rIndex.y - targetY|
    let xPosDeviation := |f.rIndex.x - targetX|
    let fingerPlacementOk : Bool :=
      decide (yPosDeviation < FINGER_Y_ALIGNMENT_TOLERANCE ∧
        xPosDeviation < FINGER_X_ALIGNMENT_TOLERANCE)
    let wristRigidityAngle := calculate_angle atan2d f.rElbow.pt f.rWrist.pt f.rIndex.pt
    let handFormOk : Bool := decide (wristRigidityAngle ≥ WRIST_RIGIDITY_MIN_ANGLE)
    let elbowAngle := calculate_angle atan2d f.rShoulder.pt f.rElbow.pt f.rWrist.pt
    let elbowRaiseOk : Bool :=
      decide (ELBOW_RAISE_ANGLE_RANGE.1 ≤ elbowAngle ∧ elbowAngle ≤ ELBOW_RAISE_ANGLE_RANGE.2)
    .scored ⟨fingerPlacementOk, handFormOk, elbowRaiseOk⟩

/-- The loop state of `analyze_salute`. -/
structure SaluteState where
  fingerPlacementSucceeded : Bool
  handFormSucceeded : Bool
  elbowRaiseSucceeded : Bool
  headPositions : List Pt
  bestFailureFrame : Option SaluteFrame
  bestFailureIdx : Option ℕ
  bestSuccessFrame : Option SaluteFrame
  bestSuccessIdx : Option ℕ
  minFailuresInFrame : Option ℕ
  bestFailurePointsForFrame : List SaluteFailLabel
  foundValidPose : Bool
deriving DecidableEq

/-- Initial salute tracking state. -/
def SaluteState.init : SaluteState :=
  ⟨false, false, false, [], none, none, none, none, none, [], false⟩

/-- `num_failures < min_failures_in_frame` (strict, unlike the high-leg
march), with `none` as `float('inf')`. -/
def ltInfty (n : ℕ) : Option ℕ → Bool
  | none => true
  | some m => decide (n < m)

/-- The state updates `analyze_salute` performs on a frame whose evaluation
was scored (lines 257-278): head-position sampling, cumulative flag ORs,
failure exemplar on `<` the running minimum, first success exemplar. -/
def saluteStepScored (i : ℕ) (s : SaluteState) (f : SaluteFrame) (flags : SaluteFlags) :
    SaluteState :=
  let failPts := flags.failPoints
  let n := failPts.length
  let s1 : SaluteState := { s with
    foundValidPose := true
    headPositions :=
      if (1/2 : ℚ) < f.nose.visibility then s.headPositions ++ [f.nose.pt]
      else s.headPositions }
  let s2 : SaluteState := { s1 with
    fingerPlacementSucceeded := s1.fingerPlacementSucceeded || flags.fingerPlacement
    handFormSucceeded := s1.handFormSucceeded || flags.handForm
    elbowRaiseSucceeded := s1.elbowRaiseSucceeded || flags.elbowRaise }
  let s3 : SaluteState :=
    if 0 < n ∧ ltInfty n s2.minFailuresInFrame then
      { s2 with minFailuresInFrame := some n
                bestFailureFrame := some f
                bestFailureIdx := some i
                bestFailurePointsForFrame := failPts }
    else s2
  if n = 0 ∧ s3.bestSuccessFrame.isNone then
    { s3 with bestSuccessFrame := some f, bestSuccessIdx := some i }
  else s3

/-- The `analyze_salute` loop body on a frame with landmarks. -/
def saluteStepFrame (atan2d : ℚ → ℚ → ℚ) (i : ℕ) (s : SaluteState) (f : SaluteFrame) :
    SaluteState :=
  match getSalutePostureFeedback atan2d f with
  | .lowVisibility => s
  | .scored flags => saluteStepScored i s f flags

/-- One iteration of the `analyze_salute` video loop (lines 249-278) for the
frame at position `i`. -/
def saluteStep (atan2d : ℚ → ℚ → ℚ) (i : ℕ) (s : SaluteState) (of : Option SaluteFrame) :
    SaluteState :=
  match of with
  | none => s
  | some f => saluteStepFrame atan2d i s f

/-- Fold of `saluteStep` over the session, threading the frame position. -/
def saluteAggregateFrom (atan2d : ℚ → ℚ → ℚ) (i : ℕ) (s : SaluteState) :
    List (Option SaluteFrame) → SaluteState
  | [] => s
  | f :: fs => saluteAggregateFrom atan2d (i + 1) (saluteStep atan2d i s f) fs

/-- The tracking state after `analyze_salute` has consumed a whole session. -/
def saluteAggregate (atan2d : ℚ → ℚ → ℚ) (frames : List (Option SaluteFrame)) : SaluteState :=
  saluteAggregateFrom atan2d 0 SaluteState.init frames

/-- The cumulative per-criterion flags of a salute state. -/
def SaluteState.cumFlags (s : SaluteState) : SaluteFlags :=
  ⟨s.fingerPlacementSucceeded, s.handFormSucceeded, s.elbowRaiseSucceeded⟩

/-- Mean of a list of rationals (`ℚ` division by a zero length yields 0,
matching that the source only takes means of nonempty sample lists). -/
def listMean (xs : List ℚ) : ℚ := xs.sum / xs.length

/-- `np.std`: the square root of the population variance.  `sq` stands for
the square-root function. -/
def stdDev (sq : ℚ → ℚ) (xs : List ℚ) : ℚ :=
  sq ((xs.map (fun x => (x - listMean xs) ^ 2)).sum / xs.length)

/-- The head-stability verdicts of `analyze_salute`: the two
insufficient-data messages ("Not enough data." / "Pose held too briefly to
measure.") and the three classified outcomes. -/
inductive Stability
  | notEnoughData
  | heldTooBriefly
  | veryGood
  | moderate
  | unstable
deriving DecidableEq

/-- `std_dev_x + std_dev_y`, the "simple deviation metric" of the source. -/
def totalDeviation (sq : ℚ → ℚ) (headPositions : List Pt) : ℚ :=
  stdDev sq (headPositions.map Prod.fst) + stdDev sq (headPositions.map Prod.snd)

/-- Embedding of the head-stability calculation (salute_analysis.py, lines
283-299): classification runs only when strictly more than 10 samples were
collected; otherwise the verdict reports insufficient data. -/
def headStability (sq : ℚ → ℚ) (headPositions : List Pt) (foundValidPose : Bool) : Stability :=
  if 10 < headPositions.length then
    if totalDeviation sq headPositions ≤ HEAD_STABILITY_VERY_GOOD_THRESHOLD then .veryGood
    else if totalDeviation sq headPositions ≤ HEAD_STABILITY_MODERATE_THRESHOLD then .moderate
    else .unstable
  else if foundValidPose then .heldTooBriefly
  else .notEnoughData

/-- Modelled from the spec (§4.3 head-stability row, the claim's wording):
the stability verdict as the specification describes it, requiring at least
10 valid samples (10 or more suffice) before classifying.  Used only to
compare the specified boundary with the source's. -/
def headStabilitySpec (sq : ℚ → ℚ) (headPositions : List Pt) : Stability :=
  if headPositions.length < 10 then .notEnoughData
  else
    if totalDeviation sq headPositions ≤ HEAD_STABILITY_VERY_GOOD_THRESHOLD then .veryGood
    else if totalDeviation sq headPositions ≤ HEAD_STABILITY_MODERATE_THRESHOLD then .moderate
    else .unstable

/-- The finalized salute report: the terminal "Analysis Failed: No valid
salute posture detected" result, or the composed verdict with breakdown,
stability line and chosen annotation frame. -/
inductive SaluteReport
  | analysisFailed
  | composed (overall : Bool) (cum : SaluteFlags) (finalFailPoints : List SaluteFailLabel)
      (stability : Stability) (annotIdx : Option ℕ) (annotFailPoints : List SaluteFailLabel)
deriving DecidableEq

/-- The overall pass/fail boolean carried by a finalized salute report
(`none` when the report is the terminal analysis failure). -/
def SaluteReport.overallVerdict : SaluteReport → Option Bool
  | .analysisFailed => none
  | .composed overall _ _ _ _ _ => some overall

/-- Report compilation of `analyze_salute` (lines 283-352): stability is
computed from the collected head positions, the terminal failure fires when
no valid pose was found, and otherwise the verdict comes from the cumulative
flags with the representative-frame choice. -/
def saluteReport (sq : ℚ → ℚ) (atan2d : ℚ → ℚ → ℚ) (frames : List (Option SaluteFrame)) :
    SaluteReport :=
  let s := saluteAggregate atan2d frames
  let stability := headStability sq s.headPositions s.foundValidPose
  if !s.foundValidPose then .analysisFailed
  else
    let finalFails := s.cumFlags.failPoints
    let overall := finalFails.isEmpty
    let fallback : Option ℕ × List SaluteFailLabel :=
      if frames.any Option.isSome ∧ frames ≠ [] then
        (some (frames.length - 1), finalFails)
      else (none, [])
    let pick : Option ℕ × List SaluteFailLabel :=
      if overall then
        match s.bestSuccessIdx with
        | some i => (some i, [])
        | none => fallback
      else
        match s.bestFailureIdx with
        | some i => (some i, s.bestFailurePointsForFrame)
        | none => fallback
    .composed overall s.cumFlags finalFails stability pick.1 pick.2

/-! ## Turns (`src/drills/turns_analysis.py`) -/

def ATTENTION_ANKLE_GAP : ℚ := 3/100

def ATTENTION_KNEE_STRAIGHT : ℚ := 170

def KNEE_BEND_SNAP_MIN : ℚ := 80

def HEEL_LIFT_MIN_DIFF : ℚ := 15/1000

/-- The landmarks `analyze_turn_logic` reads.  The turn loop never checks
visibility, so only the `(x, y)` tuples are modelled. -/
structure TurnFrame where
  rHip : Pt
  lHip : Pt
  rAnkle : Pt
  lAnkle : Pt
  rKnee : Pt
  lKnee : Pt
  rHeel : Pt
  lHeel : Pt
  rFootIndex : Pt
  lFootIndex : Pt
deriving DecidableEq

/-- The turn failure identifiers. -/
inductive TurnFailLabel
  | HEEL_DISENGAGE
  | SNAP_LIFT
  | FINAL_POS
deriving DecidableEq

/-- The loop state of `analyze_turn_logic`: the three cumulative detection
flags and the frame-capture storage. -/
structure TurnState where
  finalSnapAchieved : Bool
  snapMotionDetected : Bool
  heelDisengagementDetected : Bool
  bestFailureFrame : Option TurnFrame
  bestFailureIdx : Option ℕ
  bestSuccessFrame : Option TurnFrame
  bestSuccessIdx : Option ℕ
  minFailures : Option ℕ
deriving DecidableEq

/-- Initial turn tracking state. -/
def TurnState.init : TurnState := ⟨false, false, false, none, none, none, none, none⟩

/-- The per-frame work of the `analyze_turn_logic` loop body (lines 131-181):
the three detection updates followed by the visual-capture failure labels,
which read the flags already updated by the same frame. -/
structure TurnFrameOutcome where
  heelFlag : Bool
  snapFlag : Bool
  finalFlag : Bool
  failPts : List TurnFailLabel
deriving DecidableEq

/-- The per-frame failure labels of the turn loop (lines 177-179), as a
function of the updated flags and the two extra per-frame conditions
(`moving_knee_angle > 150` for SNAP_LIFT, `not legs_straight or not
ankles_together` for FINAL_POS), appended in the fixed source order. -/
def turnFailPts (heelFlag snapFlag finalFlag snapExtra finalExtra : Bool) :
    List TurnFailLabel :=
  (if heelFlag then [] else [.HEEL_DISENGAGE]) ++
  (if !snapFlag && snapExtra then [.SNAP_LIFT] else []) ++
  (if !finalFlag && finalExtra then [.FINAL_POS] else [])

def turnFrameOutcome (atan2d : ℚ → ℚ → ℚ) (isRightTurn : Bool) (s : TurnState)
    (f : TurnFrame) : TurnFrameOutcome :=
  let movingHeel := if isRightTurn then f.lHeel else f.rHeel
  let movingToe := if isRightTurn then f.lFootIndex else f.rFootIndex
  let movingHip := if isRightTurn then f.lHip else f.rHip
  let movingKnee := if isRightTurn then f.lKnee else f.rKnee
  let movingAnkle := if isRightTurn then f.lAnkle else f.rAnkle
  let stationaryHip := if isRightTurn then f.rHip else f.lHip
  let stationaryKnee := if isRightTurn then f.rKnee else f.lKnee
  let stationaryAnkle := if isRightTurn then f.rAnkle else f.lAnkle
  let heelFlag := s.heelDisengagementDetected ||
    decide (movingToe.2 - movingHeel.2 > HEEL_LIFT_MIN_DIFF)
  let movingKneeAngle := calculate_angle atan2d movingHip movingKnee movingAnkle
  let snapFlag := s.snapMotionDetected || decide (movingKneeAngle < KNEE_BEND_SNAP_MIN)
  let stationaryStraight : Bool :=
    decide (calculate_angle atan2d stationaryHip stationaryKnee stationaryAnkle >
      ATTENTION_KNEE_STRAIGHT)
  let movingStraight : Bool := decide (movingKneeAngle > ATTENTION_KNEE_STRAIGHT)
  let legsStraight := stationaryStraight && movingStraight
  let anklesTogether : Bool := decide (|f.rAnkle.1 - f.lAnkle.1| < ATTENTION_ANKLE_GAP)
  let finalFlag := s.finalSnapAchieved || (legsStraight && anklesTogether)
  let failPts : List TurnFailLabel :=
    turnFailPts heelFlag snapFlag finalFlag (decide (movingKneeAngle > 150))
      (!legsStraight || !anklesTogether)
  ⟨heelFlag, snapFlag, finalFlag, failPts⟩

/-- The per-frame state updates of the `analyze_turn_logic` loop on a frame
with landmarks. -/
def turnStepFrame (atan2d : ℚ → ℚ → ℚ) (isRightTurn : Bool) (i : ℕ) (s : TurnState)
    (f : TurnFrame) : TurnState :=
  let o := turnFrameOutcome atan2d isRightTurn s f
  let n := o.failPts.length
  let s1 : TurnState := { s with
    heelDisengagementDetected := o.heelFlag
    snapMotionDetected := o.snapFlag
    finalSnapAchieved := o.finalFlag }
  let s2 : TurnState :=
    if n = 0 then { s1 with bestSuccessFrame := some f, bestSuccessIdx := some i }
    else s1
  if 0 < n ∧ (s2.bestFailureFrame.isNone ||
      (match s2.minFailures with | none => false | some m => decide (m < n))) then
    { s2 with minFailures := some n, bestFailureFrame := some f, bestFailureIdx := some i }
  else s2

/-- One iteration of the `analyze_turn_logic` loop for the frame at position
`i`; a frame without landmarks (`none`) leaves the state untouched. -/
def turnStep (atan2d : ℚ → ℚ → ℚ) (isRightTurn : Bool) (i : ℕ) (s : TurnState)
    (of : Option TurnFrame) : TurnState :=
  match of with
  | none => s
  | some f => turnStepFrame atan2d isRightTurn i s f

/-- Fold of `turnStep` over the session, threading the frame position. -/
def turnAggregateFrom (atan2d : ℚ → ℚ → ℚ) (isRightTurn : Bool) (i : ℕ) (s : TurnState) :
    List (Option TurnFrame) → TurnState
  | [] => s
  | f :: fs => turnAggregateFrom atan2d isRightTurn (i + 1) (turnStep atan2d isRightTurn i s f) fs

/-- The tracking state after `analyze_turn_logic` has consumed a session. -/
def turnAggregate (atan2d : ℚ → ℚ → ℚ) (isRightTurn : Bool)
    (frames : List (Option TurnFrame)) : TurnState :=
  turnAggregateFrom atan2d isRightTurn 0 TurnState.init frames

/-- The finalized turn report (lines 200-252).  `analyze_turn_logic` has no
terminal no-valid-posture branch: every session that reaches finalization
produces the overall verdict and the three component-breakdown lines. -/
structure TurnReport where
  overall : Bool
  heelDisengagement : Bool
  snapMotion : Bool
  finalSnap : Bool
  finalFailPoints : List TurnFailLabel
  annotIdx : Option ℕ
deriving DecidableEq

/-- Report compilation of `analyze_turn_logic`: verdict is the conjunction
of the three cumulative detections; on failure the final fail labels list
every undetected criterion and the failure exemplar is shown. -/
def turnReport (atan2d : ℚ → ℚ → ℚ) (isRightTurn : Bool)
    (frames : List (Option TurnFrame)) : TurnReport :=
  let s := turnAggregate atan2d isRightTurn frames
  let overall := s.heelDisengagementDetected && s.snapMotionDetected && s.finalSnapAchieved
  let pick : Option ℕ × List TurnFailLabel :=
    if overall then (s.bestSuccessIdx, [])
    else
      (s.bestFailureIdx,
        (if s.heelDisengagementDetected then [] else [.HEEL_DISENGAGE]) ++
        (if s.snapMotionDetected then [] else [.SNAP_LIFT]) ++
        (if s.finalSnapAchieved then [] else [.FINAL_POS]))
  ⟨overall, s.heelDisengagementDetected, s.snapMotionDetected, s.finalSnapAchieved,
    pick.2, pick.1⟩

/-! ## Superseded high-leg march revision (`src/video_upload.py`) -/

def VU_HIGH_LEG_Y_TOLERANCE : ℚ := 4/100

def VU_HIP_FLEXION_ANGLE_RANGE : ℚ × ℚ := (80, 105)

def VU_KNEE_BEND_ANGLE_RANGE : ℚ × ℚ := (80, 105)

/-- The landmarks the `video_upload.py` revision of `analyze_high_leg_march`
reads (no visibility checks there either). -/
structure VUFrame where
  lShoulder : Pt
  lHip : Pt
  lKnee : Pt
  lAnkle : Pt
  rShoulder : Pt
  rHip : Pt
  rKnee : Pt
  rAnkle : Pt
deriving DecidableEq

/-- The three tracking flags of the `video_upload.py` revision. -/
structure VUState where
  correctKneeHeightAchieved : Bool
  correctKneeAngleAchieved : Bool
  correctHighLegPoseAchieved : Bool
deriving DecidableEq

/-- Initial flags of the `video_upload.py` revision. -/
def VUState.init : VUState := ⟨false, false, false⟩

/-- One iteration of the `video_upload.py` loop (lines 46-94): per-leg
checks, the success tracking that sets all three flags, and the failure
tracking that can reset the knee-height and knee-angle flags. -/
def vuStep (atan2d : ℚ → ℚ → ℚ) (s : VUState) (of : Option VUFrame) : VUState :=
  match of with
  | none => s
  | some f =>
    let lKneeLevelOk : Bool := decide (f.lKnee.2 ≤ f.lHip.2 + VU_HIGH_LEG_Y_TOLERANCE)
    let lHipFlexAngle := calculate_angle atan2d f.lShoulder f.lHip f.lKnee
    let lHipFlexOk : Bool := decide (VU_HIP_FLEXION_ANGLE_RANGE.1 ≤ lHipFlexAngle ∧
      lHipFlexAngle ≤ VU_HIP_FLEXION_ANGLE_RANGE.2)
    let lKneeBendAngle := calculate_angle atan2d f.lHip f.lKnee f.lAnkle
    let lKneeBendOk : Bool := decide (VU_KNEE_BEND_ANGLE_RANGE.1 ≤ lKneeBendAngle ∧
      lKneeBendAngle ≤ VU_KNEE_BEND_ANGLE_RANGE.2)
    let leftCorrectFrame := lKneeLevelOk && lHipFlexOk && lKneeBendOk
    let rKneeLevelOk : Bool := decide (f.rKnee.2 ≤ f.rHip.2 + VU_HIGH_LEG_Y_TOLERANCE)
    let rHipFlexAngle := calculate_angle atan2d f.rShoulder f.rHip f.rKnee
    let rHipFlexOk : Bool := decide (VU_HIP_FLEXION_ANGLE_RANGE.1 ≤ rHipFlexAngle ∧
      rHipFlexAngle ≤ VU_HIP_FLEXION_ANGLE_RANGE.2)
    let rKneeBendAngle := calculate_angle atan2d f.rHip f.rKnee f.rAnkle
    let rKneeBendOk : Bool := decide (VU_KNEE_BEND_ANGLE_RANGE.1 ≤ rKneeBendAngle ∧
      rKneeBendAngle ≤ VU_KNEE_BEND_ANGLE_RANGE.2)
    let rightCorrectFrame := rKneeLevelOk && rHipFlexOk && rKneeBendOk
    let s1 : VUState :=
      if leftCorrectFrame || rightCorrectFrame then
        { s with correctHighLegPoseAchieved := true
                 correctKneeHeightAchieved := true
                 correctKneeAngleAchieved := true }
      else s
    if decide (f.lKnee.2 < f.lHip.2) || decide (f.rKnee.2 < f.rHip.2) then
      let s2 : VUState :=
        if !lKneeLevelOk && !rKneeLevelOk then { s1 with correctKneeHeightAchieved := false }
        else s1
      if !lKneeBendOk && !rKneeBendOk then { s2 with correctKneeAngleAchieved := false }
      else s2
    else s1

/-- The flags after the `video_upload.py` revision has consumed a session. -/
def vuAggregate (atan2d : ℚ → ℚ → ℚ) (frames : List (Option VUFrame)) : VUState :=
  frames.foldl (vuStep atan2d) VUState.init

/-! ## Derived notions used by the statements -/

/-- The overall pass/fail boolean carried by a finalized high-leg report
(`none` when the report is the terminal analysis failure). -/
def HLReport.overallVerdict : HLReport → Option Bool
  | .analysisFailed => none
  | .composed overall _ _ _ _ _ => some overall

/-- A frame the high-leg evaluator rejects: a required landmark is missing
or below the visibility gate, or no leg is lifted beyond the hysteresis
band ("success_flags is None" in the source). -/
def HLRejected (atan2d : ℚ → ℚ → ℚ) (fr : HLFrame) : Prop :=
  getPostureFeedback atan2d fr = .lowVisibility ∨ getPostureFeedback atan2d fr = .noLift

/-- A high-leg session frame that contributes nothing: no landmarks at all,
or a rejected evaluation. -/
def HLUnusable (atan2d : ℚ → ℚ → ℚ) : Option HLFrame → Prop
  | none => True
  | some fr => HLRejected atan2d fr

/-- A salute session frame that contributes nothing. -/
def SaluteUnusable (atan2d : ℚ → ℚ → ℚ) : Option SaluteFrame → Prop
  | none => True
  | some fr => getSalutePostureFeedback atan2d fr = .lowVisibility

/-- Everything the high-leg march aggregation tracks except the bookkeeping
indices recording which video frame an exemplar image was copied from:
cumulative flags, best angles, the exemplar images themselves, their fail
points, and the found-valid-pose bit. -/
structure HLView where
  cum : HLFlags
  foundValidPose : Bool
  bestHipFlexionOverall : ℚ
  bestKneeBendOverall : ℚ
  bestFootAngleOverall : ℚ
  bestFailureFrame : Option HLFrame
  bestSuccessFrame : Option HLFrame
  minFailuresInFrame : Option ℕ
  bestFailurePointsForFrame : List HLFailLabel
  anglesForAnnotation : Option HLAngles
deriving DecidableEq

/-- Projection of a high-leg state onto its index-free view. -/
def HLState.view (s : HLState) : HLView :=
  ⟨s.cumFlags, s.foundValidPose, s.bestHipFlexionOverall, s.bestKneeBendOverall,
    s.bestFootAngleOverall, s.bestFailureFrame, s.bestSuccessFrame,
    s.minFailuresInFrame, s.bestFailurePointsForFrame, s.anglesForAnnotation⟩

/-- The salute analogue of `HLView`. -/
structure SaluteView where
  cum : SaluteFlags
  foundValidPose : Bool
  headPositions : List Pt
  bestFailureFrame : Option SaluteFrame
  bestSuccessFrame : Option SaluteFrame
  minFailuresInFrame : Option ℕ
  bestFailurePointsForFrame : List SaluteFailLabel
deriving DecidableEq

/-- Projection of a salute state onto its index-free view. -/
def SaluteState.view (s : SaluteState) : SaluteView :=
  ⟨s.cumFlags, s.foundValidPose, s.headPositions, s.bestFailureFrame,
    s.bestSuccessFrame, s.minFailuresInFrame, s.bestFailurePointsForFrame⟩

/-- The per-frame failure count of the high-leg session at position `k`:
`some n` when the frame there is a valid evaluation with `n` failed checks,
`none` when there is no frame, no landmarks or a rejected evaluation. -/
def hlFailCountAt (atan2d : ℚ → ℚ → ℚ) (frames : List (Option HLFrame)) (k : ℕ) : Option ℕ :=
  match frames[k]? with
  | some (some fr) =>
    match getPostureFeedback atan2d fr with
    | .scored flags _ => some flags.failPoints.length
    | _ => none
  | _ => none

/-- The salute analogue of `hlFailCountAt`. -/
def saluteFailCountAt (atan2d : ℚ → ℚ → ℚ) (frames : List (Option SaluteFrame)) (k : ℕ) :
    Option ℕ :=
  match frames[k]? with
  | some (some fr) =>
    match getSalutePostureFeedback atan2d fr with
    | .scored flags => some flags.failPoints.length
    | _ => none
  | _ => none

/-- The turn tracking state after the first `k` frames of the session. -/
def turnStateAt (atan2d : ℚ → ℚ → ℚ) (isRightTurn : Bool)
    (frames : List (Option TurnFrame)) (k : ℕ) : TurnState :=
  turnAggregate atan2d isRightTurn (frames.take k)

/-- The per-frame failure count of the turn session at position `k`.  Turn
failure labels depend on the accumulated flags, so the count is taken
against the state reached just before frame `k`. -/
def turnFailCountAt (atan2d : ℚ → ℚ → ℚ) (isRightTurn : Bool)
    (frames : List (Option TurnFrame)) (k : ℕ) : Option ℕ :=
  match frames[k]? with
  | some (some fr) =>
    some (turnFrameOutcome atan2d isRightTurn (turnStateAt atan2d isRightTurn frames k) fr).failPts.length
  | _ => none

/-- Agreement of two salute frames on everything the three geometric
criteria can see: all landmarks except the nose's coordinates (the nose's
visibility, which gates frame validity, must agree). -/
def noseIndependentEq (f g : SaluteFrame) : Bool :=
  decide (f.rEar = g.rEar ∧ f.rEyeOuter = g.rEyeOuter ∧ f.rShoulder = g.rShoulder ∧
    f.rElbow = g.rElbow ∧ f.rWrist = g.rWrist ∧ f.rIndex = g.rIndex ∧
    f.nose.visibility = g.nose.visibility)

/-- Two salute sessions that differ only in the head-position (nose)
time series: frame by frame, landmarks agree except the nose coordinates. -/
def sessionsNoseDiffOnly : List (Option SaluteFrame) → List (Option SaluteFrame) → Bool
  | [], [] => true
  | some f :: fs, some g :: gs => noseIndependentEq f g && sessionsNoseDiffOnly fs gs
  | none :: fs, none :: gs => sessionsNoseDiffOnly fs gs
  | _, _ => false

/-! ## Concrete frames used by witnesses and counterexamples

All their vectors between evaluated landmarks are axis-aligned, so
`atan2dAxes` returns the exact `math.degrees(math.atan2 …)` value at every
point where these frames make the evaluators call it. -/

/-- A high-leg march frame satisfying all four checks (left leg lifted,
hip-flexion 90°, knee-bend 90°, support knee 180°, foot angle 90°). -/
def hlPassFrame : HLFrame :=
  { rShoulder := ⟨2/5, 3/10, 9/10⟩
    lShoulder := ⟨1/2, 3/10, 9/10⟩
    rHip := ⟨2/5, 1/2, 9/10⟩
    lHip := ⟨1/2, 1/2, 9/10⟩
    rKnee := ⟨2/5, 7/10, 9/10⟩
    lKnee := ⟨7/10, 1/2, 9/10⟩
    rAnkle := ⟨2/5, 9/10, 9/10⟩
    lAnkle := ⟨7/10, 7/10, 9/10⟩
    rHeel := ⟨3/10, 9/10, 9/10⟩
    lHeel := ⟨3/5, 7/10, 9/10⟩
    rFootIndex := ⟨9/20, 23/25, 9/10⟩
    lFootIndex := ⟨7/10, 4/5, 9/10⟩ }

/-- `hlPassFrame` with the left toe moved onto the heel, so the foot angle
is 0 and exactly one check (FOOT_ANGLE) fails. -/
def hlFailFrame : HLFrame :=
  { hlPassFrame with lFootIndex := ⟨3/5, 7/10, 9/10⟩ }

/-- A high-leg march frame rejected by the visibility gate. -/
def hlLowVisFrame : HLFrame :=
  { rShoulder := ⟨2/5, 3/10, 0⟩
    lShoulder := ⟨1/2, 3/10, 0⟩
    rHip := ⟨2/5, 1/2, 0⟩
    lHip := ⟨1/2, 1/2, 0⟩
    rKnee := ⟨2/5, 7/10, 0⟩
    lKnee := ⟨7/10, 1/2, 0⟩
    rAnkle := ⟨2/5, 9/10, 0⟩
    lAnkle := ⟨7/10, 7/10, 0⟩
    rHeel := ⟨3/10, 9/10, 0⟩
    lHeel := ⟨3/5, 7/10, 0⟩
    rFootIndex := ⟨9/20, 23/25, 0⟩
    lFootIndex := ⟨7/10, 4/5, 0⟩ }

/-- A salute frame satisfying all three checks (index finger exactly on the
target, wrist angle 180°, elbow angle 180°). -/
def salutePassFrame : SaluteFrame :=
  { rEar := ⟨17/20, 1/5, 9/10⟩
    rEyeOuter := ⟨3/4, 1/5, 9/10⟩
    rShoulder := ⟨4/5, 4/5, 9/10⟩
    rElbow := ⟨4/5, 3/5, 9/10⟩
    rWrist := ⟨4/5, 2/5, 9/10⟩
    rIndex := ⟨4/5, 1/5, 9/10⟩
    nose := ⟨7/10, 3/20, 9/10⟩ }

/-- `salutePassFrame` with the nose moved elsewhere (same visibility). -/
def salutePassFrameNoseMoved : SaluteFrame :=
  { salutePassFrame with nose := ⟨1/10, 19/20, 9/10⟩ }

/-- A salute frame rejected by the visibility gate. -/
def saluteLowVisFrame : SaluteFrame :=
  { rEar := ⟨17/20, 1/5, 0⟩
    rEyeOuter := ⟨3/4, 1/5, 0⟩
    rShoulder := ⟨4/5, 4/5, 0⟩
    rElbow := ⟨4/5, 3/5, 0⟩
    rWrist := ⟨4/5, 2/5, 0⟩
    rIndex := ⟨4/5, 1/5, 0⟩
    nose := ⟨7/10, 3/20, 0⟩ }

/-- Right-turn frame: heel lifted (toe−heel = 0.02), moving knee at 90°
(no snap, no SNAP_LIFT label since 90 ≤ 150), stationary leg straight,
legs not both straight, so only FINAL_POS fails (one failure). -/
def turnFrameOneFail : TurnFrame :=
  { rHip := (2/5, 3/10)
    lHip := (1/2, 3/10)
    rAnkle := (2/5, 7/10)
    lAnkle := (7/10, 1/2)
    rKnee := (2/5, 1/2)
    lKnee := (1/2, 1/2)
    rHeel := (2/5, 7/10)
    lHeel := (1/2, 1/2)
    rFootIndex := (2/5, 7/10)
    lFootIndex := (1/2, 13/25) }

/-- Right-turn frame processed after `turnFrameOneFail`: moving knee at
180° (> 150 with snap still undetected, so SNAP_LIFT fails) and ankles
0.1 apart (so FINAL_POS fails): two failures. -/
def turnFrameTwoFails : TurnFrame :=
  { rHip := (2/5, 3/10)
    lHip := (1/2, 3/10)
    rAnkle := (2/5, 7/10)
    lAnkle := (1/2, 7/10)
    rKnee := (2/5, 1/2)
    lKnee := (1/2, 1/2)
    rHeel := (1/2, 7/10)
    lHeel := (1/2, 7/10)
    rFootIndex := (2/5, 7/10)
    lFootIndex := (1/2, 7/10) }

/-- Frame for the superseded `video_upload.py` revision in which the left
leg is fully correct (knee at hip level, hip-flexion 90°, knee-bend 90°). -/
def vuAllCorrectFrame : VUFrame :=
  { lShoulder := (1/2, 3/10)
    lHip := (1/2, 1/2)
    lKnee := (7/10, 1/2)
    lAnkle := (7/10, 7/10)
    rShoulder := (2/5, 3/10)
    rHip := (2/5, 1/2)
    rKnee := (2/5, 7/10)
    rAnkle := (2/5, 9/10) }

/-- Frame for the superseded revision that triggers its failure tracking:
the left knee is above the left hip but both knee-bend angles are 180°,
outside the (80, 105) range, so the knee-angle flag is reset. -/
def vuResetFrame : VUFrame :=
  { lShoulder := (1/2, 3/10)
    lHip := (1/2, 1/2)
    lKnee := (1/2, 2/5)
    lAnkle := (1/2, 3/10)
    rShoulder := (2/5, 3/10)
    rHip := (2/5, 1/2)
    rKnee := (2/5, 7/10)
    rAnkle := (2/5, 9/10) }

/-! ## Helper lemmas -/

/-- `atan2dAxes` stays within atan2's range. -/
theorem atan2dAxes_range (y x : ℚ) : -180 < atan2dAxes y x ∧ atan2dAxes y x ≤ 180 := by
  simp only [atan2dAxes]
  split_ifs <;> norm_num

/-- `atan2dAxes` satisfies all recorded atan2 facts. -/
theorem atan2dAxes_facts : Atan2DegFacts atan2dAxes := by
  refine ⟨atan2dAxes_range, by norm_num [atan2dAxes], fun x hx => ?_, fun y hy => ?_,
    fun y hy => ?_, fun x hx => ?_⟩
  · have h : ¬ (x < 0) := by linarith
    simp [atan2dAxes, h]
  · simp [atan2dAxes, hy]
  · have h : ¬ ((0 : ℚ) < y) := by linarith
    simp [atan2dAxes, hy, h]
  · simp [atan2dAxes, hx]

/-- The angle produced by `calculate_angle` lies in `[0, 180]` whenever the
atan2 parameter respects atan2's range. -/
theorem calculate_angle_bounds (atan2d : ℚ → ℚ → ℚ)
    (hrange : ∀ y x, -180 < atan2d y x ∧ atan2d y x ≤ 180) (a b c : Pt) :
    0 ≤ calculate_angle atan2d a b c ∧ calculate_angle atan2d a b c ≤ 180 := by
  have h1 := hrange (c.2 - b.2) (c.1 - b.1)
  have h2 := hrange (a.2 - b.2) (a.1 - b.1)
  have habs : |atan2d (c.2 - b.2) (c.1 - b.1) - atan2d (a.2 - b.2) (a.1 - b.1)| < 360 := by
    rw [abs_sub_lt_iff]
    constructor <;> linarith [h1.1, h1.2, h2.1, h2.2]
  have habs0 : 0 ≤ |atan2d (c.2 - b.2) (c.1 - b.1) - atan2d (a.2 - b.2) (a.1 - b.1)| :=
    abs_nonneg _
  simp only [calculate_angle]
  split_ifs with h
  · constructor <;> linarith
  · constructor <;> linarith [not_lt.mp h]

/-- A frame with no landmarks leaves the high-leg state untouched. -/
theorem hlStep_none (atan2d : ℚ → ℚ → ℚ) (i : ℕ) (s : HLState) :
    hlStep atan2d i s none = s := rfl

/-- A rejected frame leaves the high-leg state untouched. -/
theorem hlStep_rejected (atan2d : ℚ → ℚ → ℚ) (i : ℕ) (s : HLState) (fr : HLFrame)
    (h : HLRejected atan2d fr) : hlStep atan2d i s (some fr) = s := by
  show hlStepFrame atan2d i s fr = s
  rcases h with h | h <;>
  · unfold hlStepFrame
    rw [h]

/-- On a scored frame, the step dispatches to the scored-frame updates. -/
theorem hlStep_eq_scored (atan2d : ℚ → ℚ → ℚ) (i : ℕ) (s : HLState) (fr : HLFrame)
    (flags : HLFlags) (angles : HLAngles)
    (h : getPostureFeedback atan2d fr = .scored flags angles) :
    hlStep atan2d i s (some fr) = hlStepScored i s fr flags angles := by
  show hlStepFrame atan2d i s fr = _
  unfold hlStepFrame
  rw [h]

/-- The scored-frame updates set `found_valid_pose` and OR each flag. -/
theorem hlStepScored_flags (i : ℕ) (s : HLState) (f : HLFrame) (flags : HLFlags)
    (angles : HLAngles) :
    (hlStepScored i s f flags angles).foundValidPose = true ∧
    (hlStepScored i s f flags angles).kneeHeightSucceeded =
      (s.kneeHeightSucceeded || flags.kneeHeight) ∧
    (hlStepScored i s f flags angles).kneeAngleSucceeded =
      (s.kneeAngleSucceeded || flags.kneeAngle) ∧
    (hlStepScored i s f flags angles).stationaryLegSucceeded =
      (s.stationaryLegSucceeded || flags.stationaryLeg) ∧
    (hlStepScored i s f flags angles).footAngleSucceeded =
      (s.footAngleSucceeded || flags.footAngle) := by
  simp only [hlStepScored]
  split_ifs <;> simp

/-- On a scored frame, the step sets `found_valid_pose` and ORs each flag. -/
theorem hlStep_scored (atan2d : ℚ → ℚ → ℚ) (i : ℕ) (s : HLState) (fr : HLFrame)
    (flags : HLFlags) (angles : HLAngles)
    (h : getPostureFeedback atan2d fr = .scored flags angles) :
    (hlStep atan2d i s (some fr)).foundValidPose = true ∧
    (hlStep atan2d i s (some fr)).kneeHeightSucceeded = (s.kneeHeightSucceeded || flags.kneeHeight) ∧
    (hlStep atan2d i s (some fr)).kneeAngleSucceeded = (s.kneeAngleSucceeded || flags.kneeAngle) ∧
    (hlStep atan2d i s (some fr)).stationaryLegSucceeded =
      (s.stationaryLegSucceeded || flags.stationaryLeg) ∧
    (hlStep atan2d i s (some fr)).footAngleSucceeded = (s.footAngleSucceeded || flags.footAngle) := by
  rw [hlStep_eq_scored atan2d i s fr flags angles h]
  exact hlStepScored_flags i s fr flags angles

/-- Each high-leg flag and the found-valid bit only ever go from false to
true under a step. -/
theorem hlStep_mono (atan2d : ℚ → ℚ → ℚ) (i : ℕ) (s : HLState) (of : Option HLFrame) :
    (s.foundValidPose = true → (hlStep atan2d i s of).foundValidPose = true) ∧
    (s.kneeHeightSucceeded = true → (hlStep atan2d i s of).kneeHeightSucceeded = true) ∧
    (s.kneeAngleSucceeded = true → (hlStep atan2d i s of).kneeAngleSucceeded = true) ∧
    (s.stationaryLegSucceeded = true → (hlStep atan2d i s of).stationaryLegSucceeded = true) ∧
    (s.footAngleSucceeded = true → (hlStep atan2d i s of).footAngleSucceeded = true) := by
  match of with
  | none => exact ⟨fun h => h, fun h => h, fun h => h, fun h => h, fun h => h⟩
  | some fr =>
    match hfb : getPostureFeedback atan2d fr with
    | .lowVisibility =>
      rw [hlStep_rejected atan2d i s fr (Or.inl hfb)]
      exact ⟨fun h => h, fun h => h, fun h => h, fun h => h, fun h => h⟩
    | .noLift =>
      rw [hlStep_rejected atan2d i s fr (Or.inr hfb)]
      exact ⟨fun h => h, fun h => h, fun h => h, fun h => h, fun h => h⟩
    | .scored flags angles =>
      have h := hlStep_scored atan2d i s fr flags angles hfb
      refine ⟨fun _ => h.1, fun hh => ?_, fun hh => ?_, fun hh => ?_, fun hh => ?_⟩
      · rw [h.2.1, hh, Bool.true_or]
      · rw [h.2.2.1, hh, Bool.true_or]
      · rw [h.2.2.2.1, hh, Bool.true_or]
      · rw [h.2.2.2.2, hh, Bool.true_or]

/-- Fold monotonicity of the high-leg cumulative flags. -/
theorem hlAggregateFrom_mono (atan2d : ℚ → ℚ → ℚ) :
    ∀ (fs : List (Option HLFrame)) (i : ℕ) (s : HLState),
    (s.foundValidPose = true → (hlAggregateFrom atan2d i s fs).foundValidPose = true) ∧
    (s.kneeHeightSucceeded = true → (hlAggregateFrom atan2d i s fs).kneeHeightSucceeded = true) ∧
    (s.kneeAngleSucceeded = true → (hlAggregateFrom atan2d i s fs).kneeAngleSucceeded = true) ∧
    (s.stationaryLegSucceeded = true →
      (hlAggregateFrom atan2d i s fs).stationaryLegSucceeded = true) ∧
    (s.footAngleSucceeded = true → (hlAggregateFrom atan2d i s fs).footAngleSucceeded = true)
  | [], _, _ => ⟨fun h => h, fun h => h, fun h => h, fun h => h, fun h => h⟩
  | f :: fs, i, s => by
    have hstep := hlStep_mono atan2d i s f
    have ih := hlAggregateFrom_mono atan2d fs (i + 1) (hlStep atan2d i s f)
    exact ⟨fun h => ih.1 (hstep.1 h), fun h => ih.2.1 (hstep.2.1 h),
      fun h => ih.2.2.1 (hstep.2.2.1 h), fun h => ih.2.2.2.1 (hstep.2.2.2.1 h),
      fun h => ih.2.2.2.2 (hstep.2.2.2.2 h)⟩

/-- A frame with no landmarks leaves the salute state untouched. -/
theorem saluteStep_none (atan2d : ℚ → ℚ → ℚ) (i : ℕ) (s : SaluteState) :
    saluteStep atan2d i s none = s := rfl

/-- A rejected frame leaves the salute state untouched. -/
theorem saluteStep_rejected (atan2d : ℚ → ℚ → ℚ) (i : ℕ) (s : SaluteState) (fr : SaluteFrame)
    (h : getSalutePostureFeedback atan2d fr = .lowVisibility) :
    saluteStep atan2d i s (some fr) = s := by
  show saluteStepFrame atan2d i s fr = s
  unfold saluteStepFrame
  rw [h]

/-- On a scored frame, the salute step dispatches to the scored updates. -/
theorem saluteStep_eq_scored (atan2d : ℚ → ℚ → ℚ) (i : ℕ) (s : SaluteState) (fr : SaluteFrame)
    (flags : SaluteFlags) (h : getSalutePostureFeedback atan2d fr = .scored flags) :
    saluteStep atan2d i s (some fr) = saluteStepScored i s fr flags := by
  show saluteStepFrame atan2d i s fr = _
  unfold saluteStepFrame
  rw [h]

/-- The scored salute updates set `found_valid_pose` and OR each flag. -/
theorem saluteStepScored_flags (i : ℕ) (s : SaluteState) (f : SaluteFrame)
    (flags : SaluteFlags) :
    (saluteStepScored i s f flags).foundValidPose = true ∧
    (saluteStepScored i s f flags).fingerPlacementSucceeded =
      (s.fingerPlacementSucceeded || flags.fingerPlacement) ∧
    (saluteStepScored i s f flags).handFormSucceeded = (s.handFormSucceeded || flags.handForm) ∧
    (saluteStepScored i s f flags).elbowRaiseSucceeded =
      (s.elbowRaiseSucceeded || flags.elbowRaise) := by
  simp only [saluteStepScored]
  split_ifs <;> simp

/-- Each salute flag and the found-valid bit only ever go from false to true
under a step. -/
theorem saluteStep_mono (atan2d : ℚ → ℚ → ℚ) (i : ℕ) (s : SaluteState) (of : Option SaluteFrame) :
    (s.foundValidPose = true → (saluteStep atan2d i s of).foundValidPose = true) ∧
    (s.fingerPlacementSucceeded = true →
      (saluteStep atan2d i s of).fingerPlacementSucceeded = true) ∧
    (s.handFormSucceeded = true → (saluteStep atan2d i s of).handFormSucceeded = true) ∧
    (s.elbowRaiseSucceeded = true → (saluteStep atan2d i s of).elbowRaiseSucceeded = true) := by
  match of with
  | none => exact ⟨fun h => h, fun h => h, fun h => h, fun h => h⟩
  | some fr =>
    match hfb : getSalutePostureFeedback atan2d fr with
    | .lowVisibility =>
      rw [saluteStep_rejected atan2d i s fr hfb]
      exact ⟨fun h => h, fun h => h, fun h => h, fun h => h⟩
    | .scored flags =>
      rw [saluteStep_eq_scored atan2d i s fr flags hfb]
      have h := saluteStepScored_flags i s fr flags
      refine ⟨fun _ => h.1, fun hh => ?_, fun hh => ?_, fun hh => ?_⟩
      · rw [h.2.1, hh, Bool.true_or]
      · rw [h.2.2.1, hh, Bool.true_or]
      · rw [h.2.2.2, hh, Bool.true_or]

/-- Fold monotonicity of the salute cumulative flags. -/
theorem saluteAggregateFrom_mono (atan2d : ℚ → ℚ → ℚ) :
    ∀ (fs : List (Option SaluteFrame)) (i : ℕ) (s : SaluteState),
    (s.foundValidPose = true → (saluteAggregateFrom atan2d i s fs).foundValidPose = true) ∧
    (s.fingerPlacementSucceeded = true →
      (saluteAggregateFrom atan2d i s fs).fingerPlacementSucceeded = true) ∧
    (s.handFormSucceeded = true → (saluteAggregateFrom atan2d i s fs).handFormSucceeded = true) ∧
    (s.elbowRaiseSucceeded = true → (saluteAggregateFrom atan2d i s fs).elbowRaiseSucceeded = true)
  | [], _, _ => ⟨fun h => h, fun h => h, fun h => h, fun h => h⟩
  | f :: fs, i, s => by
    have hstep := saluteStep_mono atan2d i s f
    have ih := saluteAggregateFrom_mono atan2d fs (i + 1) (saluteStep atan2d i s f)
    exact ⟨fun h => ih.1 (hstep.1 h), fun h => ih.2.1 (hstep.2.1 h),
      fun h => ih.2.2.1 (hstep.2.2.1 h), fun h => ih.2.2.2 (hstep.2.2.2 h)⟩

/-- A frame with no landmarks leaves the turn state untouched. -/
theorem turnStep_none (atan2d : ℚ → ℚ → ℚ) (rt : Bool) (i : ℕ) (s : TurnState) :
    turnStep atan2d rt i s none = s := rfl

/-- The per-frame outcome flags only ever go from false to true. -/
theorem turnFrameOutcome_mono (atan2d : ℚ → ℚ → ℚ) (rt : Bool) (s : TurnState) (f : TurnFrame) :
    (s.heelDisengagementDetected = true → (turnFrameOutcome atan2d rt s f).heelFlag = true) ∧
    (s.snapMotionDetected = true → (turnFrameOutcome atan2d rt s f).snapFlag = true) ∧
    (s.finalSnapAchieved = true → (turnFrameOutcome atan2d rt s f).finalFlag = true) := by
  refine ⟨fun h => ?_, fun h => ?_, fun h => ?_⟩ <;> simp [turnFrameOutcome, h]

/-- The step stores exactly the outcome's updated flags. -/
theorem turnStepFrame_flags (atan2d : ℚ → ℚ → ℚ) (rt : Bool) (i : ℕ) (s : TurnState)
    (f : TurnFrame) :
    (turnStepFrame atan2d rt i s f).heelDisengagementDetected =
      (turnFrameOutcome atan2d rt s f).heelFlag ∧
    (turnStepFrame atan2d rt i s f).snapMotionDetected =
      (turnFrameOutcome atan2d rt s f).snapFlag ∧
    (turnStepFrame atan2d rt i s f).finalSnapAchieved =
      (turnFrameOutcome atan2d rt s f).finalFlag := by
  simp only [turnStepFrame]
  split_ifs <;> simp

/-- Each turn detection flag only ever goes from false to true under a step. -/
theorem turnStep_mono (atan2d : ℚ → ℚ → ℚ) (rt : Bool) (i : ℕ) (s : TurnState)
    (of : Option TurnFrame) :
    (s.heelDisengagementDetected = true →
      (turnStep atan2d rt i s of).heelDisengagementDetected = true) ∧
    (s.snapMotionDetected = true → (turnStep atan2d rt i s of).snapMotionDetected = true) ∧
    (s.finalSnapAchieved = true → (turnStep atan2d rt i s of).finalSnapAchieved = true) := by
  match of with
  | none => exact ⟨fun h => h, fun h => h, fun h => h⟩
  | some fr =>
    have hf := turnStepFrame_flags atan2d rt i s fr
    have hm := turnFrameOutcome_mono atan2d rt s fr
    refine ⟨fun h => ?_, fun h => ?_, fun h => ?_⟩
    · show (turnStepFrame atan2d rt i s fr).heelDisengagementDetected = true
      rw [hf.1]
      exact hm.1 h
    · show (turnStepFrame atan2d rt i s fr).snapMotionDetected = true
      rw [hf.2.1]
      exact hm.2.1 h
    · show (turnStepFrame atan2d rt i s fr).finalSnapAchieved = true
      rw [hf.2.2]
      exact hm.2.2 h

/-- Fold monotonicity of the turn detection flags. -/
theorem turnAggregateFrom_mono (atan2d : ℚ → ℚ → ℚ) (rt : Bool) :
    ∀ (fs : List (Option TurnFrame)) (i : ℕ) (s : TurnState),
    (s.heelDisengagementDetected = true →
      (turnAggregateFrom atan2d rt i s fs).heelDisengagementDetected = true) ∧
    (s.snapMotionDetected = true →
      (turnAggregateFrom atan2d rt i s fs).snapMotionDetected = true) ∧
    (s.finalSnapAchieved = true → (turnAggregateFrom atan2d rt i s fs).finalSnapAchieved = true)
  | [], _, _ => ⟨fun h => h, fun h => h, fun h => h⟩
  | f :: fs, i, s => by
    have hstep := turnStep_mono atan2d rt i s f
    have ih := turnAggregateFrom_mono atan2d rt fs (i + 1) (turnStep atan2d rt i s f)
    exact ⟨fun h => ih.1 (hstep.1 h), fun h => ih.2.1 (hstep.2.1 h),
      fun h => ih.2.2 (hstep.2.2 h)⟩

/-! ## Claim theorems -/

/-- Processing a session that contains a scored frame sets the found-valid
bit and every flag that frame satisfied. -/
theorem hlAggregateFrom_mem_scored (atan2d : ℚ → ℚ → ℚ) :
    ∀ (fs : List (Option HLFrame)) (i : ℕ) (s : HLState) (fr : HLFrame) (flags : HLFlags)
      (angles : HLAngles), some fr ∈ fs → getPostureFeedback atan2d fr = .scored flags angles →
    (hlAggregateFrom atan2d i s fs).foundValidPose = true ∧
    (flags.kneeHeight = true → (hlAggregateFrom atan2d i s fs).kneeHeightSucceeded = true) ∧
    (flags.kneeAngle = true → (hlAggregateFrom atan2d i s fs).kneeAngleSucceeded = true) ∧
    (flags.stationaryLeg = true →
      (hlAggregateFrom atan2d i s fs).stationaryLegSucceeded = true) ∧
    (flags.footAngle = true → (hlAggregateFrom atan2d i s fs).footAngleSucceeded = true)
  | [], _, _, _, _, _, hmem, _ => absurd hmem (List.not_mem_nil _)
  | f :: fs, i, s, fr, flags, angles, hmem, hfb => by
    rcases List.mem_cons.mp hmem with heq | hmem'
    · simp only [hlAggregateFrom]
      rw [← heq, hlStep_eq_scored atan2d i s fr flags angles hfb]
      have hset := hlStepScored_flags i s fr flags angles
      have hmono := hlAggregateFrom_mono atan2d fs (i + 1) (hlStepScored i s fr flags angles)
      refine ⟨hmono.1 hset.1, fun hf => hmono.2.1 ?_, fun hf => hmono.2.2.1 ?_,
        fun hf => hmono.2.2.2.1 ?_, fun hf => hmono.2.2.2.2 ?_⟩
      · rw [hset.2.1, hf, Bool.or_true]
      · rw [hset.2.2.1, hf, Bool.or_true]
      · rw [hset.2.2.2.1, hf, Bool.or_true]
      · rw [hset.2.2.2.2, hf, Bool.or_true]
    · exact hlAggregateFrom_mem_scored atan2d fs (i + 1) (hlStep atan2d i s f) fr flags angles
        hmem' hfb

/-- Salute analogue of `hlAggregateFrom_mem_scored`. -/
theorem saluteAggregateFrom_mem_scored (atan2d : ℚ → ℚ → ℚ) :
    ∀ (fs : List (Option SaluteFrame)) (i : ℕ) (s : SaluteState) (fr : SaluteFrame)
      (flags : SaluteFlags), some fr ∈ fs → getSalutePostureFeedback atan2d fr = .scored flags →
    (saluteAggregateFrom atan2d i s fs).foundValidPose = true ∧
    (flags.fingerPlacement = true →
      (saluteAggregateFrom atan2d i s fs).fingerPlacementSucceeded = true) ∧
    (flags.handForm = true → (saluteAggregateFrom atan2d i s fs).handFormSucceeded = true) ∧
    (flags.elbowRaise = true → (saluteAggregateFrom atan2d i s fs).elbowRaiseSucceeded = true)
  | [], _, _, _, _, hmem, _ => absurd hmem (List.not_mem_nil _)
  | f :: fs, i, s, fr, flags, hmem, hfb => by
    rcases List.mem_cons.mp hmem with heq | hmem'
    · simp only [saluteAggregateFrom]
      rw [← heq, saluteStep_eq_scored atan2d i s fr flags hfb]
      have hset := saluteStepScored_flags i s fr flags
      have hmono := saluteAggregateFrom_mono atan2d fs (i + 1) (saluteStepScored i s fr flags)
      refine ⟨hmono.1 hset.1, fun hf => hmono.2.1 ?_, fun hf => hmono.2.2.1 ?_,
        fun hf => hmono.2.2.2 ?_⟩
      · rw [hset.2.1, hf, Bool.or_true]
      · rw [hset.2.2.1, hf, Bool.or_true]
      · rw [hset.2.2.2, hf, Bool.or_true]
    · exact saluteAggregateFrom_mem_scored atan2d fs (i + 1) (saluteStep atan2d i s f) fr flags
        hmem' hfb

/-- C1: for the drills with per-frame criterion sets (high-leg march and
salute, the evaluators the claim's sources cite), a session containing at
least one valid evaluation satisfying all of the drill's criteria finalizes
to an overall pass, however the other frames fail. -/
theorem C1_single_perfect_frame_passes (sq : ℚ → ℚ) (atan2d : ℚ → ℚ → ℚ) :
    (∀ frames : List (Option HLFrame),
      (∃ fr angles, some fr ∈ frames ∧
        getPostureFeedback atan2d fr = .scored ⟨true, true, true, true⟩ angles) →
      (hlReport atan2d frames).overallVerdict = some true) ∧
    (∀ frames : List (Option SaluteFrame),
      (∃ fr, some fr ∈ frames ∧
        getSalutePostureFeedback atan2d fr = .scored ⟨true, true, true⟩) →
      (saluteReport sq atan2d frames).overallVerdict = some true) := by
  constructor
  · rintro frames ⟨fr, angles, hmem, hfb⟩
    obtain ⟨hfv, h1, h2, h3, h4⟩ :=
      hlAggregateFrom_mem_scored atan2d frames 0 HLState.init fr ⟨true, true, true, true⟩
        angles hmem hfb
    simp only [hlReport, hlAggregate, HLState.cumFlags, hfv, h1 rfl, h2 rfl, h3 rfl, h4 rfl,
      HLFlags.failPoints, HLReport.overallVerdict]
    simp [HLReport.overallVerdict]
  · rintro frames ⟨fr, hmem, hfb⟩
    obtain ⟨hfv, h1, h2, h3⟩ :=
      saluteAggregateFrom_mem_scored atan2d frames 0 SaluteState.init fr ⟨true, true, true⟩
        hmem hfb
    simp only [saluteReport, saluteAggregate, SaluteState.cumFlags, hfv, h1 rfl, h2 rfl, h3 rfl,
      SaluteFlags.failPoints, SaluteReport.overallVerdict]
    simp [SaluteReport.overallVerdict]

/-- Witness for C1 at concrete one-frame sessions. -/
theorem C1_witness :
    (hlReport atan2dAxes [some hlPassFrame]).overallVerdict = some true ∧
    (saluteReport id atan2dAxes [some salutePassFrame]).overallVerdict = some true := by
  have h := C1_single_perfect_frame_passes id atan2dAxes
  refine ⟨h.1 [some hlPassFrame] ⟨hlPassFrame, ⟨90, 90, 180, 90⟩, by simp, ?_⟩,
    h.2 [some salutePassFrame] ⟨salutePassFrame, by simp, ?_⟩⟩
  · norm_num [getPostureFeedback, HLFrame.lowVis, hlPassFrame, calculate_angle, atan2dAxes,
      Landmark.pt, HIGH_LEG_Y_TOLERANCE, HIP_FLEXION_ANGLE_RANGE, KNEE_BEND_ANGLE_RANGE,
      STATIONARY_LEG_STRAIGHT, FOOT_ANGLE_RANGE]
  · norm_num [getSalutePostureFeedback, SaluteFrame.lowVis, salutePassFrame, calculate_angle,
      atan2dAxes, Landmark.pt, FINGER_Y_ALIGNMENT_TOLERANCE, FINGER_X_ALIGNMENT_TOLERANCE,
      WRIST_RIGIDITY_MIN_ANGLE, ELBOW_RAISE_ANGLE_RANGE]

/-- C2 (amended): for the drill evaluators under `src/drills/` (high-leg
march, salute, turns) every cumulative per-criterion flag is monotone over
the frame fold: once true it remains true after every subsequent frame.
The superseded `video_upload.py` high-leg revision violates this (its
failure tracking can reset the knee-angle flag). -/
theorem C2_cumulative_flags_monotone (atan2d : ℚ → ℚ → ℚ) :
    (∀ (i : ℕ) (s : HLState) (fs : List (Option HLFrame)),
      (s.kneeHeightSucceeded = true →
        (hlAggregateFrom atan2d i s fs).kneeHeightSucceeded = true) ∧
      (s.kneeAngleSucceeded = true →
        (hlAggregateFrom atan2d i s fs).kneeAngleSucceeded = true) ∧
      (s.stationaryLegSucceeded = true →
        (hlAggregateFrom atan2d i s fs).stationaryLegSucceeded = true) ∧
      (s.footAngleSucceeded = true →
        (hlAggregateFrom atan2d i s fs).footAngleSucceeded = true)) ∧
    (∀ (i : ℕ) (s : SaluteState) (fs : List (Option SaluteFrame)),
      (s.fingerPlacementSucceeded = true →
        (saluteAggregateFrom atan2d i s fs).fingerPlacementSucceeded = true) ∧
      (s.handFormSucceeded = true →
        (saluteAggregateFrom atan2d i s fs).handFormSucceeded = true) ∧
      (s.elbowRaiseSucceeded = true →
        (saluteAggregateFrom atan2d i s fs).elbowRaiseSucceeded = true)) ∧
    (∀ (rt : Bool) (i : ℕ) (s : TurnState) (fs : List (Option TurnFrame)),
      (s.heelDisengagementDetected = true →
        (turnAggregateFrom atan2d rt i s fs).heelDisengagementDetected = true) ∧
      (s.snapMotionDetected = true →
        (turnAggregateFrom atan2d rt i s fs).snapMotionDetected = true) ∧
      (s.finalSnapAchieved = true →
        (turnAggregateFrom atan2d rt i s fs).finalSnapAchieved = true)) := by
  refine ⟨fun i s fs => ?_, fun i s fs => ?_, fun rt i s fs => ?_⟩
  · have h := hlAggregateFrom_mono atan2d fs i s
    exact ⟨h.2.1, h.2.2.1, h.2.2.2.1, h.2.2.2.2⟩
  · have h := saluteAggregateFrom_mono atan2d fs i s
    exact ⟨h.2.1, h.2.2.1, h.2.2.2⟩
  · exact turnAggregateFrom_mono atan2d rt fs i s

/-- Witness for C2 at a concrete input. -/
theorem C2_witness :
    (hlAggregateFrom atan2dAxes 0 { HLState.init with kneeHeightSucceeded := true }
      [none]).kneeHeightSucceeded = true :=
  ((C2_cumulative_flags_monotone atan2dAxes).1 0
    { HLState.init with kneeHeightSucceeded := true } [none]).1 rfl

/-- C2 counterexample: in the `video_upload.py` revision of
`analyze_high_leg_march` (cited by the claim), the knee-angle flag is true
after a fully correct frame but reset to false by a later frame whose knee
is above the hip with both knee-bend angles out of range: cumulative
criterion success is not monotone for that evaluator. -/
theorem C2_counterexample :
    (vuAggregate atan2dAxes [some vuAllCorrectFrame]).correctKneeAngleAchieved = true ∧
    (vuAggregate atan2dAxes
      [some vuAllCorrectFrame, some vuResetFrame]).correctKneeAngleAchieved = false := by
  constructor <;>
    norm_num [vuAggregate, vuStep, vuAllCorrectFrame, vuResetFrame, calculate_angle,
      atan2dAxes, VU_HIGH_LEG_Y_TOLERANCE, VU_HIP_FLEXION_ANGLE_RANGE,
      VU_KNEE_BEND_ANGLE_RANGE, VUState.init]

/-- A session of unusable frames leaves the high-leg state untouched. -/
theorem hlAggregateFrom_unusable (atan2d : ℚ → ℚ → ℚ) :
    ∀ (fs : List (Option HLFrame)) (i : ℕ) (s : HLState),
      (∀ f ∈ fs, HLUnusable atan2d f) → hlAggregateFrom atan2d i s fs = s
  | [], _, _, _ => rfl
  | f :: fs, i, s, h => by
    have hstep : hlStep atan2d i s f = s := by
      match f with
      | none => rfl
      | some fr => exact hlStep_rejected atan2d i s fr (h (some fr) (List.mem_cons_self _ _))
    simp only [hlAggregateFrom, hstep]
    exact hlAggregateFrom_unusable atan2d fs (i + 1) s
      (fun g hg => h g (List.mem_cons_of_mem f hg))

/-- A session of unusable frames leaves the salute state untouched. -/
theorem saluteAggregateFrom_unusable (atan2d : ℚ → ℚ → ℚ) :
    ∀ (fs : List (Option SaluteFrame)) (i : ℕ) (s : SaluteState),
      (∀ f ∈ fs, SaluteUnusable atan2d f) → saluteAggregateFrom atan2d i s fs = s
  | [], _, _, _ => rfl
  | f :: fs, i, s, h => by
    have hstep : saluteStep atan2d i s f = s := by
      match f with
      | none => rfl
      | some fr => exact saluteStep_rejected atan2d i s fr (h (some fr) (List.mem_cons_self _ _))
    simp only [saluteAggregateFrom, hstep]
    exact saluteAggregateFrom_unusable atan2d fs (i + 1) s
      (fun g hg => h g (List.mem_cons_of_mem f hg))

/-- A session of landmark-less frames leaves the turn state untouched. -/
theorem turnAggregateFrom_noLandmarks (atan2d : ℚ → ℚ → ℚ) (rt : Bool) :
    ∀ (fs : List (Option TurnFrame)) (i : ℕ) (s : TurnState),
      (∀ f ∈ fs, f = none) → turnAggregateFrom atan2d rt i s fs = s
  | [], _, _, _ => rfl
  | f :: fs, i, s, h => by
    have hf := h f (List.mem_cons_self _ _)
    subst hf
    simp only [turnAggregateFrom, turnStep]
    exact turnAggregateFrom_noLandmarks atan2d rt fs (i + 1) s
      (fun g hg => h g (List.mem_cons_of_mem _ hg))

/-- C3 (amended): a session with no usable pose finalizes to the terminal
"no valid posture detected" analysis-failed result for the high-leg march
and salute evaluators; the turn evaluators have no such terminal branch and
instead emit the ordinary per-criterion breakdown with the overall fail
verdict and all three criteria reported failed. -/
theorem C3_no_usable_session (sq : ℚ → ℚ) (atan2d : ℚ → ℚ → ℚ) :
    (∀ frames : List (Option HLFrame), (∀ f ∈ frames, HLUnusable atan2d f) →
      hlReport atan2d frames = .analysisFailed) ∧
    (∀ frames : List (Option SaluteFrame), (∀ f ∈ frames, SaluteUnusable atan2d f) →
      saluteReport sq atan2d frames = .analysisFailed) ∧
    (∀ (rt : Bool) (frames : List (Option TurnFrame)), (∀ f ∈ frames, f = none) →
      turnReport atan2d rt frames =
        ⟨false, false, false, false, [.HEEL_DISENGAGE, .SNAP_LIFT, .FINAL_POS], none⟩) := by
  refine ⟨fun frames h => ?_, fun frames h => ?_, fun rt frames h => ?_⟩
  · have hagg := hlAggregateFrom_unusable atan2d frames 0 HLState.init h
    simp only [hlReport, hlAggregate, hagg]
    simp [HLState.init]
  · have hagg := saluteAggregateFrom_unusable atan2d frames 0 SaluteState.init h
    simp only [saluteReport, saluteAggregate, hagg]
    simp [SaluteState.init]
  · have hagg := turnAggregateFrom_noLandmarks atan2d rt frames 0 TurnState.init h
    simp only [turnReport, turnAggregate, hagg]
    rfl

/-- Witness for C3 at concrete one-frame sessions. -/
theorem C3_witness :
    hlReport atan2dAxes [some hlLowVisFrame] = .analysisFailed ∧
    saluteReport id atan2dAxes [some saluteLowVisFrame] = .analysisFailed ∧
    turnReport atan2dAxes true ([none] : List (Option TurnFrame)) =
      ⟨false, false, false, false, [.HEEL_DISENGAGE, .SNAP_LIFT, .FINAL_POS], none⟩ := by
  have h := C3_no_usable_session id atan2dAxes
  refine ⟨h.1 _ ?_, h.2.1 _ ?_, h.2.2 true _ ?_⟩
  · intro f hf
    simp only [List.mem_singleton] at hf
    subst hf
    exact Or.inl (by norm_num [getPostureFeedback, HLFrame.lowVis, hlLowVisFrame])
  · intro f hf
    simp only [List.mem_singleton] at hf
    subst hf
    show getSalutePostureFeedback atan2dAxes saluteLowVisFrame = .lowVisibility
    norm_num [getSalutePostureFeedback, SaluteFrame.lowVis, saluteLowVisFrame]
  · intro f hf
    simp only [List.mem_singleton] at hf
    exact hf

/-- C3 counterexample: the claim asserts every evaluator (turns included)
finalizes a no-usable-pose session to the terminal analysis-failed result
and never to a per-criterion breakdown; the turn evaluator instead returns
the ordinary breakdown (overall fail plus the three component-failure
lines) on a session with no landmarks at all. -/
theorem C3_counterexample :
    turnReport atan2dAxes false ([none] : List (Option TurnFrame)) =
      ⟨false, false, false, false, [.HEEL_DISENGAGE, .SNAP_LIFT, .FINAL_POS], none⟩ := rfl

/-- The turn fold splits over list append, shifting the frame position. -/
theorem turnAggregateFrom_append (atan2d : ℚ → ℚ → ℚ) (rt : Bool) :
    ∀ (xs ys : List (Option TurnFrame)) (i : ℕ) (s : TurnState),
    turnAggregateFrom atan2d rt i s (xs ++ ys) =
      turnAggregateFrom atan2d rt (i + xs.length) (turnAggregateFrom atan2d rt i s xs) ys
  | [], ys, i, s => by simp [turnAggregateFrom]
  | x :: xs, ys, i, s => by
    have hlen : i + 1 + xs.length = i + (x :: xs).length := by
      simp only [List.length_cons]
      omega
    rw [List.cons_append]
    show turnAggregateFrom atan2d rt (i + 1) (turnStep atan2d rt i s x) (xs ++ ys) =
      turnAggregateFrom atan2d rt (i + (x :: xs).length)
        (turnAggregateFrom atan2d rt (i + 1) (turnStep atan2d rt i s x) xs) ys
    rw [turnAggregateFrom_append atan2d rt xs ys (i + 1) (turnStep atan2d rt i s x), hlen]

/-- A turn flag true after the first `k` frames stays true after the first
`l ≥ k` frames. -/
theorem turnStateAt_mono (atan2d : ℚ → ℚ → ℚ) (rt : Bool) (frames : List (Option TurnFrame))
    (k l : ℕ) (hkl : k ≤ l) :
    ((turnStateAt atan2d rt frames k).heelDisengagementDetected = true →
      (turnStateAt atan2d rt frames l).heelDisengagementDetected = true) ∧
    ((turnStateAt atan2d rt frames k).snapMotionDetected = true →
      (turnStateAt atan2d rt frames l).snapMotionDetected = true) ∧
    ((turnStateAt atan2d rt frames k).finalSnapAchieved = true →
      (turnStateAt atan2d rt frames l).finalSnapAchieved = true) := by
  have hkl' : k + (l - k) = l := by omega
  have hdecomp : frames.take l = frames.take k ++ (frames.drop k).take (l - k) := by
    conv_lhs => rw [← hkl']
    rw [List.take_add]
  simp only [turnStateAt, turnAggregate]
  rw [hdecomp, turnAggregateFrom_append]
  exact turnAggregateFrom_mono atan2d rt _ _ _

/-- The state after `i + 1` frames is one step past the state after `i`
frames, fed the frame at position `i`. -/
theorem turnStateAt_succ (atan2d : ℚ → ℚ → ℚ) (rt : Bool) (frames : List (Option TurnFrame))
    (i : ℕ) (ofr : Option TurnFrame) (hi : frames.get? i = some ofr) :
    turnStateAt atan2d rt frames (i + 1) =
      turnStep atan2d rt (frames.take i).length (turnStateAt atan2d rt frames i) ofr := by
  have hi' : frames[i]? = some ofr := by
    rw [← List.get?_eq_getElem?]
    exact hi
  simp only [turnStateAt, turnAggregate]
  rw [List.take_succ, hi']
  simp only [Option.toList]
  rw [turnAggregateFrom_append]
  simp [turnAggregateFrom]

/-- A true flag suppresses the corresponding label in the per-frame list. -/
theorem turnFailPts_not_mem :
    ∀ h s f se fe : Bool,
    (h = true → TurnFailLabel.HEEL_DISENGAGE ∉ turnFailPts h s f se fe) ∧
    (s = true → TurnFailLabel.SNAP_LIFT ∉ turnFailPts h s f se fe) ∧
    (f = true → TurnFailLabel.FINAL_POS ∉ turnFailPts h s f se fe) := by decide

/-- The outcome's fail list is `turnFailPts` applied to the outcome's own
(updated) flags and the frame's two extra conditions. -/
theorem turnFrameOutcome_failPts (atan2d : ℚ → ℚ → ℚ) (rt : Bool) (s : TurnState)
    (fr : TurnFrame) :
    ∃ se fe, (turnFrameOutcome atan2d rt s fr).failPts =
      turnFailPts (turnFrameOutcome atan2d rt s fr).heelFlag
        (turnFrameOutcome atan2d rt s fr).snapFlag
        (turnFrameOutcome atan2d rt s fr).finalFlag se fe :=
  ⟨_, _, rfl⟩

/-- C10: in turn analysis, once a cumulative detection flag is true after
processing some frame, the corresponding failure label never appears in the
per-frame failure list computed at that frame or at any later frame: the
labels are a function of the accumulated history, not the current frame
alone. -/
theorem C10_turn_labels_respect_history (atan2d : ℚ → ℚ → ℚ) (rt : Bool)
    (frames : List (Option TurnFrame)) (i j : ℕ) (fr : TurnFrame) (hij : i ≤ j)
    (hj : frames.get? j = some (some fr)) :
    ((turnStateAt atan2d rt frames (i + 1)).heelDisengagementDetected = true →
      TurnFailLabel.HEEL_DISENGAGE ∉
        (turnFrameOutcome atan2d rt (turnStateAt atan2d rt frames j) fr).failPts) ∧
    ((turnStateAt atan2d rt frames (i + 1)).snapMotionDetected = true →
      TurnFailLabel.SNAP_LIFT ∉
        (turnFrameOutcome atan2d rt (turnStateAt atan2d rt frames j) fr).failPts) ∧
    ((turnStateAt atan2d rt frames (i + 1)).finalSnapAchieved = true →
      TurnFailLabel.FINAL_POS ∉
        (turnFrameOutcome atan2d rt (turnStateAt atan2d rt frames j) fr).failPts) := by
  obtain ⟨se, fe, hfp⟩ := turnFrameOutcome_failPts atan2d rt (turnStateAt atan2d rt frames j) fr
  have hstep : turnStateAt atan2d rt frames (j + 1) =
      turnStepFrame atan2d rt (frames.take j).length (turnStateAt atan2d rt frames j) fr :=
    turnStateAt_succ atan2d rt frames j (some fr) hj
  have hsf := turnStepFrame_flags atan2d rt (frames.take j).length
    (turnStateAt atan2d rt frames j) fr
  have hm := turnFrameOutcome_mono atan2d rt (turnStateAt atan2d rt frames j) fr
  have hmono := turnStateAt_mono atan2d rt frames (i + 1) j
  refine ⟨fun hflag => ?_, fun hflag => ?_, fun hflag => ?_⟩ <;> rw [hfp]
  · refine (turnFailPts_not_mem _ _ _ _ _).1 ?_
    rcases Nat.lt_or_ge i j with hlt | hge
    · exact hm.1 ((hmono hlt).1 hflag)
    · have hij' : i = j := le_antisymm hij hge
      subst hij'
      rw [hstep, hsf.1] at hflag
      exact hflag
  · refine (turnFailPts_not_mem _ _ _ _ _).2.1 ?_
    rcases Nat.lt_or_ge i j with hlt | hge
    · exact hm.2.1 ((hmono hlt).2.1 hflag)
    · have hij' : i = j := le_antisymm hij hge
      subst hij'
      rw [hstep, hsf.2.1] at hflag
      exact hflag
  · refine (turnFailPts_not_mem _ _ _ _ _).2.2 ?_
    rcases Nat.lt_or_ge i j with hlt | hge
    · exact hm.2.2 ((hmono hlt).2.2 hflag)
    · have hij' : i = j := le_antisymm hij hge
      subst hij'
      rw [hstep, hsf.2.2] at hflag
      exact hflag

/-- Witness for C10 at a concrete two-frame session: the heel flag is set
by frame 0, so frame 1's failure list omits HEEL_DISENGAGE. -/
theorem C10_witness :
    TurnFailLabel.HEEL_DISENGAGE ∉
      (turnFrameOutcome atan2dAxes true
        (turnStateAt atan2dAxes true [some turnFrameOneFail, some turnFrameTwoFails] 1)
        turnFrameTwoFails).failPts := by
  refine (C10_turn_labels_respect_history atan2dAxes true
    [some turnFrameOneFail, some turnFrameTwoFails] 0 1 turnFrameTwoFails (by omega) rfl).1 ?_
  norm_num [turnStateAt, turnAggregate, turnAggregateFrom, turnStep, turnStepFrame,
    turnFrameOutcome, turnFailPts, TurnState.init, turnFrameOneFail, calculate_angle,
    atan2dAxes, HEEL_LIFT_MIN_DIFF, KNEE_BEND_SNAP_MIN, ATTENTION_KNEE_STRAIGHT,
    ATTENTION_ANKLE_GAP]

/-- C4 counterexample: in the turn evaluator the failure exemplar is
replaced when a frame's failure count strictly exceeds the stored one
(turns_analysis.py line 186, `num_failures > min_failures`), so on this
session the retained exemplar is frame 1 with two failures even though the
minimum nonzero per-frame failure count over the session is one (frame 0):
the claim's minimum-count characterization fails for the turn evaluator. -/
theorem C4_counterexample :
    (turnAggregate atan2dAxes true
      [some turnFrameOneFail, some turnFrameTwoFails]).bestFailureIdx = some 1 ∧
    turnFailCountAt atan2dAxes true [some turnFrameOneFail, some turnFrameTwoFails] 1 =
      some 2 ∧
    turnFailCountAt atan2dAxes true [some turnFrameOneFail, some turnFrameTwoFails] 0 =
      some 1 := by
  have habs1 : |(1 : ℚ)/10| = 1/10 := by norm_num
  have habs3 : |(-3 : ℚ)/10| = 3/10 := by norm_num
  have habs3' : |(3 : ℚ)/10| = 3/10 := by norm_num
  refine ⟨?_, ?_, ?_⟩ <;>
    norm_num [turnAggregate, turnAggregateFrom, turnStep, turnStepFrame, turnFrameOutcome,
      turnFailPts, TurnState.init, turnFailCountAt, turnStateAt, List.get?, turnFrameOneFail,
      turnFrameTwoFails, calculate_angle, atan2dAxes, HEEL_LIFT_MIN_DIFF, KNEE_BEND_SNAP_MIN,
      ATTENTION_KNEE_STRAIGHT, ATTENTION_ANKLE_GAP, habs1, habs3, habs3']

/-- Frames agreeing on everything but the nose coordinates get identical
criterion evaluations: the three checks never read the nose's position. -/
theorem saluteFeedback_noseAgnostic (atan2d : ℚ → ℚ → ℚ) (f g : SaluteFrame)
    (h : noseIndependentEq f g = true) :
    getSalutePostureFeedback atan2d f = getSalutePostureFeedback atan2d g := by
  simp only [noseIndependentEq, decide_eq_true_eq] at h
  obtain ⟨h1, h2, h3, h4, h5, h6, h7⟩ := h
  simp only [getSalutePostureFeedback, SaluteFrame.lowVis, h1, h2, h3, h4, h5, h6, h7]

/-- Sessions differing only in the nose time series drive the cumulative
criterion flags and the found-valid bit identically. -/
theorem saluteAggregateFrom_noseAgnostic (atan2d : ℚ → ℚ → ℚ) :
    ∀ (fs gs : List (Option SaluteFrame)) (i : ℕ) (s t : SaluteState),
    sessionsNoseDiffOnly fs gs = true →
    s.fingerPlacementSucceeded = t.fingerPlacementSucceeded →
    s.handFormSucceeded = t.handFormSucceeded →
    s.elbowRaiseSucceeded = t.elbowRaiseSucceeded →
    s.foundValidPose = t.foundValidPose →
    (saluteAggregateFrom atan2d i s fs).fingerPlacementSucceeded =
      (saluteAggregateFrom atan2d i t gs).fingerPlacementSucceeded ∧
    (saluteAggregateFrom atan2d i s fs).handFormSucceeded =
      (saluteAggregateFrom atan2d i t gs).handFormSucceeded ∧
    (saluteAggregateFrom atan2d i s fs).elbowRaiseSucceeded =
      (saluteAggregateFrom atan2d i t gs).elbowRaiseSucceeded ∧
    (saluteAggregateFrom atan2d i s fs).foundValidPose =
      (saluteAggregateFrom atan2d i t gs).foundValidPose
  | [], [], _, _, _, _, h1, h2, h3, h4 => ⟨h1, h2, h3, h4⟩
  | [], g :: gs, _, _, _, hrel, _, _, _, _ => by simp [sessionsNoseDiffOnly] at hrel
  | f :: fs, [], _, _, _, hrel, _, _, _, _ => by
    cases f <;> simp [sessionsNoseDiffOnly] at hrel
  | none :: fs, none :: gs, i, s, t, hrel, h1, h2, h3, h4 => by
    have hrel' : sessionsNoseDiffOnly fs gs = true := by
      simpa [sessionsNoseDiffOnly] using hrel
    exact saluteAggregateFrom_noseAgnostic atan2d fs gs (i + 1) s t hrel' h1 h2 h3 h4
  | none :: fs, some g :: gs, _, _, _, hrel, _, _, _, _ => by
    simp [sessionsNoseDiffOnly] at hrel
  | some f :: fs, none :: gs, _, _, _, hrel, _, _, _, _ => by
    simp [sessionsNoseDiffOnly] at hrel
  | some f :: fs, some g :: gs, i, s, t, hrel, h1, h2, h3, h4 => by
    have hrel2 : noseIndependentEq f g = true ∧ sessionsNoseDiffOnly fs gs = true := by
      simpa [sessionsNoseDiffOnly, Bool.and_eq_true] using hrel
    have hfb := saluteFeedback_noseAgnostic atan2d f g hrel2.1
    simp only [saluteAggregateFrom]
    match hres : getSalutePostureFeedback atan2d f with
    | .lowVisibility =>
      have hres' : getSalutePostureFeedback atan2d g = .lowVisibility := by
        rw [← hfb]
        exact hres
      rw [saluteStep_rejected atan2d i s f hres, saluteStep_rejected atan2d i t g hres']
      exact saluteAggregateFrom_noseAgnostic atan2d fs gs (i + 1) s t hrel2.2 h1 h2 h3 h4
    | .scored flags =>
      have hres' : getSalutePostureFeedback atan2d g = .scored flags := by
        rw [← hfb]
        exact hres
      rw [saluteStep_eq_scored atan2d i s f flags hres,
        saluteStep_eq_scored atan2d i t g flags hres']
      have hsf := saluteStepScored_flags i s f flags
      have hsg := saluteStepScored_flags i t g flags
      refine saluteAggregateFrom_noseAgnostic atan2d fs gs (i + 1) _ _ hrel2.2 ?_ ?_ ?_ ?_
      · rw [hsf.2.1, hsg.2.1, h1]
      · rw [hsf.2.2.1, hsg.2.2.1, h2]
      · rw [hsf.2.2.2, hsg.2.2.2, h3]
      · rw [hsf.1, hsg.1]

/-- C6: two salute sessions whose frames agree on everything the three
geometric criteria can see but differ arbitrarily in the nose time series
(and even in the square-root used for the stability statistic) produce the
same overall pass/fail outcome: head stability never influences the
verdict. -/
theorem C6_stability_no_influence_on_verdict (sq1 sq2 : ℚ → ℚ) (atan2d : ℚ → ℚ → ℚ)
    (s1 s2 : List (Option SaluteFrame)) (hrel : sessionsNoseDiffOnly s1 s2 = true) :
    (saluteReport sq1 atan2d s1).overallVerdict = (saluteReport sq2 atan2d s2).overallVerdict := by
  obtain ⟨hf, hh, he, hv⟩ :=
    saluteAggregateFrom_noseAgnostic atan2d s1 s2 0 SaluteState.init SaluteState.init hrel
      rfl rfl rfl rfl
  simp only [saluteReport, saluteAggregate, SaluteState.cumFlags, SaluteFlags.failPoints]
  by_cases hb : (saluteAggregateFrom atan2d 0 SaluteState.init s2).foundValidPose = true
  · have ha : (saluteAggregateFrom atan2d 0 SaluteState.init s1).foundValidPose = true := by
      rw [hv]
      exact hb
    simp only [ha, hb, hf, hh, he, Bool.not_true, Bool.false_eq_true, if_false,
      SaluteReport.overallVerdict]
  · have hb' : (saluteAggregateFrom atan2d 0 SaluteState.init s2).foundValidPose = false :=
      Bool.not_eq_true _ ▸ Bool.eq_false_iff.mpr hb
    have ha' : (saluteAggregateFrom atan2d 0 SaluteState.init s1).foundValidPose = false := by
      rw [hv]
      exact hb'
    simp only [ha', hb', Bool.not_false, if_true, SaluteReport.overallVerdict]

/-- Witness for C6 at concrete sessions differing only in nose position. -/
theorem C6_witness :
    (saluteReport id atan2dAxes [some salutePassFrame]).overallVerdict =
      (saluteReport id atan2dAxes [some salutePassFrameNoseMoved]).overallVerdict := by
  refine C6_stability_no_influence_on_verdict id id atan2dAxes _ _ ?_
  simp [sessionsNoseDiffOnly, noseIndependentEq, salutePassFrame, salutePassFrameNoseMoved]

/-- The high-leg fold splits over list append, shifting the frame position. -/
theorem hlAggregateFrom_append (atan2d : ℚ → ℚ → ℚ) :
    ∀ (xs ys : List (Option HLFrame)) (i : ℕ) (s : HLState),
    hlAggregateFrom atan2d i s (xs ++ ys) =
      hlAggregateFrom atan2d (i + xs.length) (hlAggregateFrom atan2d i s xs) ys
  | [], ys, i, s => by simp [hlAggregateFrom]
  | x :: xs, ys, i, s => by
    have hlen : i + 1 + xs.length = i + (x :: xs).length := by
      simp only [List.length_cons]
      omega
    rw [List.cons_append]
    show hlAggregateFrom atan2d (i + 1) (hlStep atan2d i s x) (xs ++ ys) =
      hlAggregateFrom atan2d (i + (x :: xs).length)
        (hlAggregateFrom atan2d (i + 1) (hlStep atan2d i s x) xs) ys
    rw [hlAggregateFrom_append atan2d xs ys (i + 1) (hlStep atan2d i s x), hlen]

/-- The salute fold splits over list append, shifting the frame position. -/
theorem saluteAggregateFrom_append (atan2d : ℚ → ℚ → ℚ) :
    ∀ (xs ys : List (Option SaluteFrame)) (i : ℕ) (s : SaluteState),
    saluteAggregateFrom atan2d i s (xs ++ ys) =
      saluteAggregateFrom atan2d (i + xs.length) (saluteAggregateFrom atan2d i s xs) ys
  | [], ys, i, s => by simp [saluteAggregateFrom]
  | x :: xs, ys, i, s => by
    have hlen : i + 1 + xs.length = i + (x :: xs).length := by
      simp only [List.length_cons]
      omega
    rw [List.cons_append]
    show saluteAggregateFrom atan2d (i + 1) (saluteStep atan2d i s x) (xs ++ ys) =
      saluteAggregateFrom atan2d (i + (x :: xs).length)
        (saluteAggregateFrom atan2d (i + 1) (saluteStep atan2d i s x) xs) ys
    rw [saluteAggregateFrom_append atan2d xs ys (i + 1) (saluteStep atan2d i s x), hlen]

/-- The index-free view after a scored step does not depend on the frame
position, only on the previous view. -/
theorem hlStepScored_view_congr (i j : ℕ) (s s' : HLState) (f : HLFrame) (flags : HLFlags)
    (angles : HLAngles) (hv : s.view = s'.view) :
    (hlStepScored i s f flags angles).view = (hlStepScored j s' f flags angles).view := by
  cases s
  cases s'
  simp only [HLState.view, HLState.cumFlags, HLView.mk.injEq, HLFlags.mk.injEq] at hv
  obtain ⟨⟨e1, e2, e3, e4⟩, e5, e6, e7, e8, e9, e10, e11, e12, e13⟩ := hv
  subst e1 e2 e3 e4 e5 e6 e7 e8 e9 e10 e11 e12 e13
  simp only [hlStepScored, HLState.view, HLState.cumFlags]
  split_ifs <;> rfl

/-- `hlStep`'s effect on the view does not depend on the frame position. -/
theorem hlStep_view_congr (atan2d : ℚ → ℚ → ℚ) (i j : ℕ) (s s' : HLState)
    (hv : s.view = s'.view) (of : Option HLFrame) :
    (hlStep atan2d i s of).view = (hlStep atan2d j s' of).view := by
  match of with
  | none => exact hv
  | some fr =>
    match hres : getPostureFeedback atan2d fr with
    | .lowVisibility =>
      rw [hlStep_rejected atan2d i s fr (Or.inl hres),
        hlStep_rejected atan2d j s' fr (Or.inl hres)]
      exact hv
    | .noLift =>
      rw [hlStep_rejected atan2d i s fr (Or.inr hres),
        hlStep_rejected atan2d j s' fr (Or.inr hres)]
      exact hv
    | .scored flags angles =>
      rw [hlStep_eq_scored atan2d i s fr flags angles hres,
        hlStep_eq_scored atan2d j s' fr flags angles hres]
      exact hlStepScored_view_congr i j s s' fr flags angles hv

/-- The fold's view does not depend on the starting frame position. -/
theorem hlAggregateFrom_view_congr (atan2d : ℚ → ℚ → ℚ) :
    ∀ (fs : List (Option HLFrame)) (i j : ℕ) (s s' : HLState), s.view = s'.view →
    (hlAggregateFrom atan2d i s fs).view = (hlAggregateFrom atan2d j s' fs).view
  | [], _, _, _, _, hv => hv
  | f :: fs, i, j, s, s', hv =>
    hlAggregateFrom_view_congr atan2d fs (i + 1) (j + 1) _ _
      (hlStep_view_congr atan2d i j s s' hv f)

/-- Salute analogue of `hlStepScored_view_congr`. -/
theorem saluteStepScored_view_congr (i j : ℕ) (s s' : SaluteState) (f : SaluteFrame)
    (flags : SaluteFlags) (hv : s.view = s'.view) :
    (saluteStepScored i s f flags).view = (saluteStepScored j s' f flags).view := by
  cases s
  cases s'
  simp only [SaluteState.view, SaluteState.cumFlags, SaluteView.mk.injEq,
    SaluteFlags.mk.injEq] at hv
  obtain ⟨⟨e1, e2, e3⟩, e4, e5, e6, e7, e8, e9⟩ := hv
  subst e1 e2 e3 e4 e5 e6 e7 e8 e9
  simp only [saluteStepScored, SaluteState.view, SaluteState.cumFlags]
  split_ifs <;> rfl

/-- Salute analogue of `hlStep_view_congr`. -/
theorem saluteStep_view_congr (atan2d : ℚ → ℚ → ℚ) (i j : ℕ) (s s' : SaluteState)
    (hv : s.view = s'.view) (of : Option SaluteFrame) :
    (saluteStep atan2d i s of).view = (saluteStep atan2d j s' of).view := by
  match of with
  | none => exact hv
  | some fr =>
    match hres : getSalutePostureFeedback atan2d fr with
    | .lowVisibility =>
      rw [saluteStep_rejected atan2d i s fr hres, saluteStep_rejected atan2d j s' fr hres]
      exact hv
    | .scored flags =>
      rw [saluteStep_eq_scored atan2d i s fr flags hres,
        saluteStep_eq_scored atan2d j s' fr flags hres]
      exact saluteStepScored_view_congr i j s s' fr flags hv

/-- Salute analogue of `hlAggregateFrom_view_congr`. -/
theorem saluteAggregateFrom_view_congr (atan2d : ℚ → ℚ → ℚ) :
    ∀ (fs : List (Option SaluteFrame)) (i j : ℕ) (s s' : SaluteState), s.view = s'.view →
    (saluteAggregateFrom atan2d i s fs).view = (saluteAggregateFrom atan2d j s' fs).view
  | [], _, _, _, _, hv => hv
  | f :: fs, i, j, s, s', hv =>
    saluteAggregateFrom_view_congr atan2d fs (i + 1) (j + 1) _ _
      (saluteStep_view_congr atan2d i j s s' hv f)

/-- C9: a frame rejected for low visibility or no active pose contributes
nothing: the step leaves the whole aggregation state unchanged (so the
session is not aborted), and splicing such a frame into a session leaves
the cumulative flags, best angles, exemplar images and failure tracking —
everything except the bookkeeping frame positions — identical. -/
theorem C9_rejected_frames_inert (atan2d : ℚ → ℚ → ℚ) :
    (∀ (i : ℕ) (s : HLState) (fr : HLFrame), HLRejected atan2d fr →
      hlStep atan2d i s (some fr) = s) ∧
    (∀ (pre post : List (Option HLFrame)) (fr : HLFrame), HLRejected atan2d fr →
      (hlAggregate atan2d (pre ++ some fr :: post)).view =
        (hlAggregate atan2d (pre ++ post)).view) ∧
    (∀ (i : ℕ) (s : SaluteState) (fr : SaluteFrame),
      getSalutePostureFeedback atan2d fr = .lowVisibility →
      saluteStep atan2d i s (some fr) = s) ∧
    (∀ (pre post : List (Option SaluteFrame)) (fr : SaluteFrame),
      getSalutePostureFeedback atan2d fr = .lowVisibility →
      (saluteAggregate atan2d (pre ++ some fr :: post)).view =
        (saluteAggregate atan2d (pre ++ post)).view) := by
  refine ⟨hlStep_rejected atan2d, fun pre post fr hrej => ?_,
    saluteStep_rejected atan2d, fun pre post fr hrej => ?_⟩
  · simp only [hlAggregate]
    rw [hlAggregateFrom_append, hlAggregateFrom_append]
    simp only [hlAggregateFrom]
    rw [hlStep_rejected atan2d (0 + pre.length) (hlAggregateFrom atan2d 0 HLState.init pre)
      fr hrej]
    exact hlAggregateFrom_view_congr atan2d post _ _ _ _ rfl
  · simp only [saluteAggregate]
    rw [saluteAggregateFrom_append, saluteAggregateFrom_append]
    simp only [saluteAggregateFrom]
    rw [saluteStep_rejected atan2d (0 + pre.length)
      (saluteAggregateFrom atan2d 0 SaluteState.init pre) fr hrej]
    exact saluteAggregateFrom_view_congr atan2d post _ _ _ _ rfl

/-- Witness for C9 at concrete sessions. -/
theorem C9_witness :
    hlStep atan2dAxes 0 HLState.init (some hlLowVisFrame) = HLState.init ∧
    (hlAggregate atan2dAxes ([some hlPassFrame] ++ some hlLowVisFrame :: [])).view =
      (hlAggregate atan2dAxes ([some hlPassFrame] ++ [])).view := by
  have hrej : HLRejected atan2dAxes hlLowVisFrame :=
    Or.inl (by norm_num [getPostureFeedback, HLFrame.lowVis, hlLowVisFrame])
  exact ⟨(C9_rejected_frames_inert atan2dAxes).1 0 HLState.init hlLowVisFrame hrej,
    (C9_rejected_frames_inert atan2dAxes).2.1 [some hlPassFrame] [] hlLowVisFrame hrej⟩

/-- No failure count at a landmark-less frame. -/
theorem hlFailCountAt_of_none (atan2d : ℚ → ℚ → ℚ) (frames : List (Option HLFrame)) (i : ℕ)
    (hgi : frames[i]? = some none) : hlFailCountAt atan2d frames i = none := by
  simp [hlFailCountAt, hgi]

/-- No failure count at a rejected frame. -/
theorem hlFailCountAt_of_rejected (atan2d : ℚ → ℚ → ℚ) (frames : List (Option HLFrame))
    (i : ℕ) (fr : HLFrame) (hgi : frames[i]? = some (some fr))
    (h : HLRejected atan2d fr) : hlFailCountAt atan2d frames i = none := by
  rcases h with h | h <;> simp [hlFailCountAt, hgi, h]

/-- The failure count at a scored frame is its number of failed checks. -/
theorem hlFailCountAt_of_scored (atan2d : ℚ → ℚ → ℚ) (frames : List (Option HLFrame))
    (i : ℕ) (fr : HLFrame) (flags : HLFlags) (angles : HLAngles)
    (hgi : frames[i]? = some (some fr))
    (hfb : getPostureFeedback atan2d fr = .scored flags angles) :
    hlFailCountAt atan2d frames i = some flags.failPoints.length := by
  simp [hlFailCountAt, hgi, hfb]

/-- A position with a failure count lies inside the session. -/
theorem hlFailCountAt_lt_length (atan2d : ℚ → ℚ → ℚ) (frames : List (Option HLFrame))
    (k n : ℕ) (h : hlFailCountAt atan2d frames k = some n) : k < frames.length := by
  by_contra hk
  push_neg at hk
  have hnone : frames[k]? = none := by
    rw [← List.get?_eq_getElem?]
    exact List.get?_eq_none.mpr hk
  simp [hlFailCountAt, hnone] at h

/-- Salute analogues of the count lemmas. -/
theorem saluteFailCountAt_of_none (atan2d : ℚ → ℚ → ℚ) (frames : List (Option SaluteFrame))
    (i : ℕ) (hgi : frames[i]? = some none) : saluteFailCountAt atan2d frames i = none := by
  simp [saluteFailCountAt, hgi]

theorem saluteFailCountAt_of_rejected (atan2d : ℚ → ℚ → ℚ)
    (frames : List (Option SaluteFrame)) (i : ℕ) (fr : SaluteFrame)
    (hgi : frames[i]? = some (some fr))
    (h : getSalutePostureFeedback atan2d fr = .lowVisibility) :
    saluteFailCountAt atan2d frames i = none := by
  simp [saluteFailCountAt, hgi, h]

theorem saluteFailCountAt_of_scored (atan2d : ℚ → ℚ → ℚ)
    (frames : List (Option SaluteFrame)) (i : ℕ) (fr : SaluteFrame) (flags : SaluteFlags)
    (hgi : frames[i]? = some (some fr))
    (hfb : getSalutePostureFeedback atan2d fr = .scored flags) :
    saluteFailCountAt atan2d frames i = some flags.failPoints.length := by
  simp [saluteFailCountAt, hgi, hfb]

theorem saluteFailCountAt_lt_length (atan2d : ℚ → ℚ → ℚ)
    (frames : List (Option SaluteFrame)) (k n : ℕ)
    (h : saluteFailCountAt atan2d frames k = some n) : k < frames.length := by
  by_contra hk
  push_neg at hk
  have hnone : frames[k]? = none := by
    rw [← List.get?_eq_getElem?]
    exact List.get?_eq_none.mpr hk
  simp [saluteFailCountAt, hnone] at h

/-- When the failure-capture condition holds (`0 < n` and `n <=` the running
minimum), the high-leg step stores this frame as the failure exemplar. -/
theorem hlStepScored_tracking_pos (i : ℕ) (s : HLState) (f : HLFrame) (flags : HLFlags)
    (angles : HLAngles) (h : 0 < flags.failPoints.length ∧
      leInfty flags.failPoints.length s.minFailuresInFrame = true) :
    (hlStepScored i s f flags angles).bestFailureIdx = some i ∧
    (hlStepScored i s f flags angles).minFailuresInFrame = some flags.failPoints.length := by
  obtain ⟨hpos, hle⟩ := h
  simp only [hlStepScored, apply_ite HLState.bestFailureIdx,
    apply_ite HLState.minFailuresInFrame, ite_self]
  constructor <;> rw [if_pos ⟨hpos, hle⟩]

/-- Otherwise the failure tracking is untouched. -/
theorem hlStepScored_tracking_neg (i : ℕ) (s : HLState) (f : HLFrame) (flags : HLFlags)
    (angles : HLAngles) (h : ¬(0 < flags.failPoints.length ∧
      leInfty flags.failPoints.length s.minFailuresInFrame = true)) :
    (hlStepScored i s f flags angles).bestFailureIdx = s.bestFailureIdx ∧
    (hlStepScored i s f flags angles).minFailuresInFrame = s.minFailuresInFrame := by
  simp only [hlStepScored, apply_ite HLState.bestFailureIdx,
    apply_ite HLState.minFailuresInFrame, ite_self]
  constructor <;> rw [if_neg h]

/-- Salute versions, with the strict `<` capture condition. -/
theorem saluteStepScored_tracking_pos (i : ℕ) (s : SaluteState) (f : SaluteFrame)
    (flags : SaluteFlags) (h : 0 < flags.failPoints.length ∧
      ltInfty flags.failPoints.length s.minFailuresInFrame = true) :
    (saluteStepScored i s f flags).bestFailureIdx = some i ∧
    (saluteStepScored i s f flags).minFailuresInFrame = some flags.failPoints.length := by
  obtain ⟨hpos, hlt⟩ := h
  simp only [saluteStepScored, apply_ite SaluteState.bestFailureIdx,
    apply_ite SaluteState.minFailuresInFrame, ite_self]
  constructor <;> rw [if_pos ⟨hpos, hlt⟩]

theorem saluteStepScored_tracking_neg (i : ℕ) (s : SaluteState) (f : SaluteFrame)
    (flags : SaluteFlags) (h : ¬(0 < flags.failPoints.length ∧
      ltInfty flags.failPoints.length s.minFailuresInFrame = true)) :
    (saluteStepScored i s f flags).bestFailureIdx = s.bestFailureIdx ∧
    (saluteStepScored i s f flags).minFailuresInFrame = s.minFailuresInFrame := by
  simp only [saluteStepScored, apply_ite SaluteState.bestFailureIdx,
    apply_ite SaluteState.minFailuresInFrame, ite_self]
  constructor <;> rw [if_neg h]

/-- Extending the tracking invariant past a frame with no failure count. -/
theorem hl_tracking_extend (atan2d : ℚ → ℚ → ℚ) (frames : List (Option HLFrame)) (i : ℕ)
    (s : HLState) (hcnt : hlFailCountAt atan2d frames i = none) :
    ((s.bestFailureIdx = none ∧ s.minFailuresInFrame = none ∧
        ∀ k n, k < i → hlFailCountAt atan2d frames k = some n → n = 0) ∨
      (∃ j m, s.bestFailureIdx = some j ∧ s.minFailuresInFrame = some m ∧ j < i ∧ 0 < m ∧
        hlFailCountAt atan2d frames j = some m ∧
        (∀ k n, k < i → hlFailCountAt atan2d frames k = some n → 0 < n → m ≤ n) ∧
        (∀ k n, k < i → hlFailCountAt atan2d frames k = some n → n = m → k ≤ j))) →
    ((s.bestFailureIdx = none ∧ s.minFailuresInFrame = none ∧
        ∀ k n, k < i + 1 → hlFailCountAt atan2d frames k = some n → n = 0) ∨
      (∃ j m, s.bestFailureIdx = some j ∧ s.minFailuresInFrame = some m ∧ j < i + 1 ∧ 0 < m ∧
        hlFailCountAt atan2d frames j = some m ∧
        (∀ k n, k < i + 1 → hlFailCountAt atan2d frames k = some n → 0 < n → m ≤ n) ∧
        (∀ k n, k < i + 1 → hlFailCountAt atan2d frames k = some n → n = m → k ≤ j))) := by
  rintro (⟨hb, hm, hall⟩ | ⟨j, m, hb, hm, hji, hmp, hcj, hmin, hrec⟩)
  · left
    refine ⟨hb, hm, fun k n hk hkc => ?_⟩
    rcases Nat.lt_succ_iff_lt_or_eq.mp hk with hki | rfl
    · exact hall k n hki hkc
    · rw [hcnt] at hkc
      cases hkc
  · right
    refine ⟨j, m, hb, hm, Nat.lt_succ_of_lt hji, hmp, hcj, fun k n hk hkc h0 => ?_,
      fun k n hk hkc hnm => ?_⟩
    · rcases Nat.lt_succ_iff_lt_or_eq.mp hk with hki | rfl
      · exact hmin k n hki hkc h0
      · rw [hcnt] at hkc
        cases hkc
    · rcases Nat.lt_succ_iff_lt_or_eq.mp hk with hki | rfl
      · exact hrec k n hki hkc hnm
      · rw [hcnt] at hkc
        cases hkc

/-- Invariant of the high-leg failure-exemplar tracking over the fold:
either no failing frame has been seen (tracking fields empty and all counts
so far are zero), or the stored exemplar points at a failing frame whose
count is the minimum nonzero count so far, and it is the most recent
position achieving that minimum. -/
theorem hlAggregateFrom_tracking (atan2d : ℚ → ℚ → ℚ) (frames : List (Option HLFrame)) :
    ∀ (fs : List (Option HLFrame)) (i : ℕ) (s : HLState), frames.drop i = fs →
    ((s.bestFailureIdx = none ∧ s.minFailuresInFrame = none ∧
        ∀ k n, k < i → hlFailCountAt atan2d frames k = some n → n = 0) ∨
      (∃ j m, s.bestFailureIdx = some j ∧ s.minFailuresInFrame = some m ∧ j < i ∧ 0 < m ∧
        hlFailCountAt atan2d frames j = some m ∧
        (∀ k n, k < i → hlFailCountAt atan2d frames k = some n → 0 < n → m ≤ n) ∧
        (∀ k n, k < i → hlFailCountAt atan2d frames k = some n → n = m → k ≤ j))) →
    (((hlAggregateFrom atan2d i s fs).bestFailureIdx = none ∧
        (hlAggregateFrom atan2d i s fs).minFailuresInFrame = none ∧
        ∀ k n, k < i + fs.length → hlFailCountAt atan2d frames k = some n → n = 0) ∨
      (∃ j m, (hlAggregateFrom atan2d i s fs).bestFailureIdx = some j ∧
        (hlAggregateFrom atan2d i s fs).minFailuresInFrame = some m ∧ j < i + fs.length ∧
        0 < m ∧ hlFailCountAt atan2d frames j = some m ∧
        (∀ k n, k < i + fs.length → hlFailCountAt atan2d frames k = some n → 0 < n → m ≤ n) ∧
        (∀ k n, k < i + fs.length → hlFailCountAt atan2d frames k = some n → n = m → k ≤ j))) := by
  intro fs
  induction fs with
  | nil =>
    intro i s _ hpre
    simpa using hpre
  | cons f fs ih =>
    intro i s hdrop hpre
    have hgi : frames[i]? = some f := by
      have h0 : (frames.drop i)[0]? = some f := by
        rw [hdrop]
        simp
      rwa [List.getElem?_drop, Nat.add_zero] at h0
    have hdrop1 : frames.drop (i + 1) = fs := by
      have ht := congrArg List.tail hdrop
      rwa [List.tail_drop] at ht
    have hbound : i + (f :: fs).length = (i + 1) + fs.length := by
      simp only [List.length_cons]
      omega
    show ((hlAggregateFrom atan2d (i + 1) (hlStep atan2d i s f) fs).bestFailureIdx = none ∧ _) ∨ _
    rw [hbound]
    apply ih (i + 1) (hlStep atan2d i s f) hdrop1
    match f with
    | none =>
      rw [hlStep_none]
      exact hl_tracking_extend atan2d frames i s (hlFailCountAt_of_none atan2d frames i hgi) hpre
    | some fr =>
      match hfb : getPostureFeedback atan2d fr with
      | .lowVisibility =>
        rw [hlStep_rejected atan2d i s fr (Or.inl hfb)]
        exact hl_tracking_extend atan2d frames i s
          (hlFailCountAt_of_rejected atan2d frames i fr hgi (Or.inl hfb)) hpre
      | .noLift =>
        rw [hlStep_rejected atan2d i s fr (Or.inr hfb)]
        exact hl_tracking_extend atan2d frames i s
          (hlFailCountAt_of_rejected atan2d frames i fr hgi (Or.inr hfb)) hpre
      | .scored flags angles =>
        rw [hlStep_eq_scored atan2d i s fr flags angles hfb]
        have hcnt := hlFailCountAt_of_scored atan2d frames i fr flags angles hgi hfb
        by_cases hcond : 0 < flags.failPoints.length ∧
            leInfty flags.failPoints.length s.minFailuresInFrame = true
        · have htr := hlStepScored_tracking_pos i s fr flags angles hcond
          right
          refine ⟨i, flags.failPoints.length, htr.1, htr.2, Nat.lt_succ_self i, hcond.1, hcnt,
            fun k n hk hkc h0 => ?_, fun k n hk hkc hnm => ?_⟩
          · rcases Nat.lt_succ_iff_lt_or_eq.mp hk with hki | rfl
            · rcases hpre with ⟨hb, hm, hall⟩ | ⟨j, m, hb, hm, hji, hmp, hcj, hmin, hrec⟩
              · exact absurd (hall k n hki hkc) (by omega)
              · have hnm2 : flags.failPoints.length ≤ m := by
                  have hle := hcond.2
                  rw [hm] at hle
                  simpa [leInfty] using hle
                exact le_trans hnm2 (hmin k n hki hkc h0)
            · rw [hcnt] at hkc
              injection hkc with hkc
              omega
          · omega
        · have htr := hlStepScored_tracking_neg i s fr flags angles hcond
          rcases Nat.eq_zero_or_pos flags.failPoints.length with hn0 | hnpos
          · rcases hpre with ⟨hb, hm, hall⟩ | ⟨j, m, hb, hm, hji, hmp, hcj, hmin, hrec⟩
            · left
              refine ⟨htr.1.trans hb, htr.2.trans hm, fun k n hk hkc => ?_⟩
              rcases Nat.lt_succ_iff_lt_or_eq.mp hk with hki | rfl
              · exact hall k n hki hkc
              · rw [hcnt] at hkc
                injection hkc with hkc
                omega
            · right
              refine ⟨j, m, htr.1.trans hb, htr.2.trans hm, Nat.lt_succ_of_lt hji, hmp, hcj,
                fun k n hk hkc h0 => ?_, fun k n hk hkc hnm => ?_⟩
              · rcases Nat.lt_succ_iff_lt_or_eq.mp hk with hki | rfl
                · exact hmin k n hki hkc h0
                · rw [hcnt] at hkc
                  injection hkc with hkc
                  omega
              · rcases Nat.lt_succ_iff_lt_or_eq.mp hk with hki | rfl
                · exact hrec k n hki hkc hnm
                · rw [hcnt] at hkc
                  injection hkc with hkc
                  omega
          · rcases hpre with ⟨hb, hm, hall⟩ | ⟨j, m, hb, hm, hji, hmp, hcj, hmin, hrec⟩
            · exact absurd ⟨hnpos, by rw [hm]; rfl⟩ hcond
            · have hmn : m < flags.failPoints.length := by
                by_contra hmn
                push_neg at hmn
                exact hcond ⟨hnpos, by rw [hm]; simpa [leInfty] using hmn⟩
              right
              refine ⟨j, m, htr.1.trans hb, htr.2.trans hm, Nat.lt_succ_of_lt hji, hmp, hcj,
                fun k n hk hkc h0 => ?_, fun k n hk hkc hnm => ?_⟩
              · rcases Nat.lt_succ_iff_lt_or_eq.mp hk with hki | rfl
                · exact hmin k n hki hkc h0
                · rw [hcnt] at hkc
                  injection hkc with hkc
                  omega
              · rcases Nat.lt_succ_iff_lt_or_eq.mp hk with hki | rfl
                · exact hrec k n hki hkc hnm
                · rw [hcnt] at hkc
                  injection hkc with hkc
                  omega

/-- Salute analogue of `hl_tracking_extend` (ties kept at the earliest
minimal frame). -/
theorem salute_tracking_extend (atan2d : ℚ → ℚ → ℚ) (frames : List (Option SaluteFrame))
    (i : ℕ) (s : SaluteState) (hcnt : saluteFailCountAt atan2d frames i = none) :
    ((s.bestFailureIdx = none ∧ s.minFailuresInFrame = none ∧
        ∀ k n, k < i → saluteFailCountAt atan2d frames k = some n → n = 0) ∨
      (∃ j m, s.bestFailureIdx = some j ∧ s.minFailuresInFrame = some m ∧ j < i ∧ 0 < m ∧
        saluteFailCountAt atan2d frames j = some m ∧
        (∀ k n, k < i → saluteFailCountAt atan2d frames k = some n → 0 < n → m ≤ n) ∧
        (∀ k n, k < i → saluteFailCountAt atan2d frames k = some n → n = m → j ≤ k))) →
    ((s.bestFailureIdx = none ∧ s.minFailuresInFrame = none ∧
        ∀ k n, k < i + 1 → saluteFailCountAt atan2d frames k = some n → n = 0) ∨
      (∃ j m, s.bestFailureIdx = some j ∧ s.minFailuresInFrame = some m ∧ j < i + 1 ∧ 0 < m ∧
        saluteFailCountAt atan2d frames j = some m ∧
        (∀ k n, k < i + 1 → saluteFailCountAt atan2d frames k = some n → 0 < n → m ≤ n) ∧
        (∀ k n, k < i + 1 → saluteFailCountAt atan2d frames k = some n → n = m → j ≤ k))) := by
  rintro (⟨hb, hm, hall⟩ | ⟨j, m, hb, hm, hji, hmp, hcj, hmin, hrec⟩)
  · left
    refine ⟨hb, hm, fun k n hk hkc => ?_⟩
    rcases Nat.lt_succ_iff_lt_or_eq.mp hk with hki | rfl
    · exact hall k n hki hkc
    · rw [hcnt] at hkc
      cases hkc
  · right
    refine ⟨j, m, hb, hm, Nat.lt_succ_of_lt hji, hmp, hcj, fun k n hk hkc h0 => ?_,
      fun k n hk hkc hnm => ?_⟩
    · rcases Nat.lt_succ_iff_lt_or_eq.mp hk with hki | rfl
      · exact hmin k n hki hkc h0
      · rw [hcnt] at hkc
        cases hkc
    · rcases Nat.lt_succ_iff_lt_or_eq.mp hk with hki | rfl
      · exact hrec k n hki hkc hnm
      · rw [hcnt] at hkc
        cases hkc

/-- Invariant of the salute failure-exemplar tracking over the fold: the
stored exemplar achieves the minimum nonzero failure count so far and, with
the strict `<` replacement, is the earliest position achieving it. -/
theorem saluteAggregateFrom_tracking (atan2d : ℚ → ℚ → ℚ)
    (frames : List (Option SaluteFrame)) :
    ∀ (fs : List (Option SaluteFrame)) (i : ℕ) (s : SaluteState), frames.drop i = fs →
    ((s.bestFailureIdx = none ∧ s.minFailuresInFrame = none ∧
        ∀ k n, k < i → saluteFailCountAt atan2d frames k = some n → n = 0) ∨
      (∃ j m, s.bestFailureIdx = some j ∧ s.minFailuresInFrame = some m ∧ j < i ∧ 0 < m ∧
        saluteFailCountAt atan2d frames j = some m ∧
        (∀ k n, k < i → saluteFailCountAt atan2d frames k = some n → 0 < n → m ≤ n) ∧
        (∀ k n, k < i → saluteFailCountAt atan2d frames k = some n → n = m → j ≤ k))) →
    (((saluteAggregateFrom atan2d i s fs).bestFailureIdx = none ∧
        (saluteAggregateFrom atan2d i s fs).minFailuresInFrame = none ∧
        ∀ k n, k < i + fs.length → saluteFailCountAt atan2d frames k = some n → n = 0) ∨
      (∃ j m, (saluteAggregateFrom atan2d i s fs).bestFailureIdx = some j ∧
        (saluteAggregateFrom atan2d i s fs).minFailuresInFrame = some m ∧ j < i + fs.length ∧
        0 < m ∧ saluteFailCountAt atan2d frames j = some m ∧
        (∀ k n, k < i + fs.length → saluteFailCountAt atan2d frames k = some n → 0 < n →
          m ≤ n) ∧
        (∀ k n, k < i + fs.length → saluteFailCountAt atan2d frames k = some n → n = m →
          j ≤ k))) := by
  intro fs
  induction fs with
  | nil =>
    intro i s _ hpre
    simpa using hpre
  | cons f fs ih =>
    intro i s hdrop hpre
    have hgi : frames[i]? = some f := by
      have h0 : (frames.drop i)[0]? = some f := by
        rw [hdrop]
        simp
      rwa [List.getElem?_drop, Nat.add_zero] at h0
    have hdrop1 : frames.drop (i + 1) = fs := by
      have ht := congrArg List.tail hdrop
      rwa [List.tail_drop] at ht
    have hbound : i + (f :: fs).length = (i + 1) + fs.length := by
      simp only [List.length_cons]
      omega
    show ((saluteAggregateFrom atan2d (i + 1) (saluteStep atan2d i s f) fs).bestFailureIdx =
      none ∧ _) ∨ _
    rw [hbound]
    apply ih (i + 1) (saluteStep atan2d i s f) hdrop1
    match f with
    | none =>
      rw [saluteStep_none]
      exact salute_tracking_extend atan2d frames i s
        (saluteFailCountAt_of_none atan2d frames i hgi) hpre
    | some fr =>
      match hfb : getSalutePostureFeedback atan2d fr with
      | .lowVisibility =>
        rw [saluteStep_rejected atan2d i s fr hfb]
        exact salute_tracking_extend atan2d frames i s
          (saluteFailCountAt_of_rejected atan2d frames i fr hgi hfb) hpre
      | .scored flags =>
        rw [saluteStep_eq_scored atan2d i s fr flags hfb]
        have hcnt := saluteFailCountAt_of_scored atan2d frames i fr flags hgi hfb
        by_cases hcond : 0 < flags.failPoints.length ∧
            ltInfty flags.failPoints.length s.minFailuresInFrame = true
        · have htr := saluteStepScored_tracking_pos i s fr flags hcond
          right
          refine ⟨i, flags.failPoints.length, htr.1, htr.2, Nat.lt_succ_self i, hcond.1, hcnt,
            fun k n hk hkc h0 => ?_, fun k n hk hkc hnm => ?_⟩
          · rcases Nat.lt_succ_iff_lt_or_eq.mp hk with hki | rfl
            · rcases hpre with ⟨hb, hm, hall⟩ | ⟨j, m, hb, hm, hji, hmp, hcj, hmin, hrec⟩
              · exact absurd (hall k n hki hkc) (by omega)
              · have hnm2 : flags.failPoints.length < m := by
                  have hlt := hcond.2
                  rw [hm] at hlt
                  simpa [ltInfty] using hlt
                exact le_trans (Nat.le_of_lt hnm2) (hmin k n hki hkc h0)
            · rw [hcnt] at hkc
              injection hkc with hkc
              omega
          · rcases Nat.lt_succ_iff_lt_or_eq.mp hk with hki | rfl
            · rcases hpre with ⟨hb, hm, hall⟩ | ⟨j, m, hb, hm, hji, hmp, hcj, hmin, hrec⟩
              · have := hall k n hki hkc
                omega
              · have hnm2 : flags.failPoints.length < m := by
                  have hlt := hcond.2
                  rw [hm] at hlt
                  simpa [ltInfty] using hlt
                have := hmin k n hki hkc (by omega)
                omega
            · omega
        · have htr := saluteStepScored_tracking_neg i s fr flags hcond
          rcases Nat.eq_zero_or_pos flags.failPoints.length with hn0 | hnpos
          · rcases hpre with ⟨hb, hm, hall⟩ | ⟨j, m, hb, hm, hji, hmp, hcj, hmin, hrec⟩
            · left
              refine ⟨htr.1.trans hb, htr.2.trans hm, fun k n hk hkc => ?_⟩
              rcases Nat.lt_succ_iff_lt_or_eq.mp hk with hki | rfl
              · exact hall k n hki hkc
              · rw [hcnt] at hkc
                injection hkc with hkc
                omega
            · right
              refine ⟨j, m, htr.1.trans hb, htr.2.trans hm, Nat.lt_succ_of_lt hji, hmp, hcj,
                fun k n hk hkc h0 => ?_, fun k n hk hkc hnm => ?_⟩
              · rcases Nat.lt_succ_iff_lt_or_eq.mp hk with hki | rfl
                · exact hmin k n hki hkc h0
                · rw [hcnt] at hkc
                  injection hkc with hkc
                  omega
              · rcases Nat.lt_succ_iff_lt_or_eq.mp hk with hki | rfl
                · exact hrec k n hki hkc hnm
                · rw [hcnt] at hkc
                  injection hkc with hkc
                  omega
          · rcases hpre with ⟨hb, hm, hall⟩ | ⟨j, m, hb, hm, hji, hmp, hcj, hmin, hrec⟩
            · exact absurd ⟨hnpos, by rw [hm]; rfl⟩ hcond
            · have hmle : m ≤ flags.failPoints.length := by
                by_contra hmle
                push_neg at hmle
                exact hcond ⟨hnpos, by rw [hm]; simpa [ltInfty] using hmle⟩
              right
              refine ⟨j, m, htr.1.trans hb, htr.2.trans hm, Nat.lt_succ_of_lt hji, hmp, hcj,
                fun k n hk hkc h0 => ?_, fun k n hk hkc hnm => ?_⟩
              · rcases Nat.lt_succ_iff_lt_or_eq.mp hk with hki | rfl
                · exact hmin k n hki hkc h0
                · rw [hcnt] at hkc
                  injection hkc with hkc
                  omega
              · rcases Nat.lt_succ_iff_lt_or_eq.mp hk with hki | rfl
                · exact hrec k n hki hkc hnm
                · rw [hcnt] at hkc
                  injection hkc with hkc
                  omega

/-- C7: for every three 2D points, the angle computed by `calculate_angle`
lies in the closed interval `[0, 180]` degrees (values above 180 having been
folded via `360 - angle` inside the function), for any atan2 implementation
respecting atan2's range `(-180, 180]` in degrees. -/
theorem C7_calculate_angle_in_0_180 (atan2d : ℚ → ℚ → ℚ)
    (hrange : ∀ y x, -180 < atan2d y x ∧ atan2d y x ≤ 180) (a b c : Pt) :
    0 ≤ calculate_angle atan2d a b c ∧ calculate_angle atan2d a b c ≤ 180 :=
  calculate_angle_bounds atan2d hrange a b c

/-- Witness for C7 at a concrete input. -/
theorem C7_witness :
    0 ≤ calculate_angle atan2dAxes (0, 0) (0, 0) (0, 1) ∧
    calculate_angle atan2dAxes (0, 0) (0, 0) (0, 1) ≤ 180 :=
  C7_calculate_angle_in_0_180 atan2dAxes atan2dAxes_range (0, 0) (0, 0) (0, 1)

/-- C8 (amended): with coincident points `calculate_angle` never raises and
returns a defined angle in `[0, 180]`; the angle is 0 when the two outer
points coincide (`a = c`), but when `a = b` or `b = c` the zero vector's
atan2 is 0 and the result is the absolute folded angle of the remaining
ray, which need not be 0. -/
theorem C8_degenerate_points_defined (atan2d : ℚ → ℚ → ℚ) (h : Atan2DegFacts atan2d)
    (a b c : Pt) :
    (a = c → calculate_angle atan2d a b c = 0) ∧
    ((a = b ∨ b = c ∨ a = c) →
      0 ≤ calculate_angle atan2d a b c ∧ calculate_angle atan2d a b c ≤ 180) := by
  constructor
  · rintro rfl
    simp [calculate_angle]
  · intro _
    exact calculate_angle_bounds atan2d h.1 a b c

/-- Witness for C8 at a concrete input. -/
theorem C8_witness :
    calculate_angle atan2dAxes (2, 3) (5, 7) (2, 3) = 0 ∧
    (0 ≤ calculate_angle atan2dAxes (2, 3) (5, 7) (2, 3) ∧
      calculate_angle atan2dAxes (2, 3) (5, 7) (2, 3) ≤ 180) := by
  have h := C8_degenerate_points_defined atan2dAxes atan2dAxes_facts (2, 3) (5, 7) (2, 3)
  exact ⟨h.1 rfl, h.2 (Or.inr (Or.inr rfl))⟩

/-- C8 counterexample: the claim "two coincident points always yield angle 0"
fails for `a = b`: with `a = b = (0,0)` and `c = (0,1)` the source computes
`abs(atan2d(1,0) - atan2d(0,0)) = abs(90 - 0) = 90`, for every atan2
satisfying the recorded facts of `math.atan2`. -/
theorem C8_counterexample :
    ¬ ∀ f : ℚ → ℚ → ℚ, Atan2DegFacts f → ∀ a b c : Pt,
      (a = b ∨ b = c ∨ a = c) → calculate_angle f a b c = 0 := by
  intro h
  have h90 := h atan2dAxes atan2dAxes_facts (0, 0) (0, 0) (0, 1) (Or.inl rfl)
  have h90eq : calculate_angle atan2dAxes (0, 0) (0, 0) (0, 1) = 90 := by
    norm_num [calculate_angle, atan2dAxes]
  rw [h90eq] at h90
  norm_num at h90

/-- C5 (amended): the head-stability verdict reports insufficient data
exactly when at most 10 valid samples were collected (so 10 samples still
report insufficient data, not "10 or more classify" as claimed); with more
than 10 samples the verdict is classified from the summed standard
deviations against the 0.02 / 0.05 thresholds. -/
theorem C5_head_stability_boundary (sq : ℚ → ℚ) (ps : List Pt) (fvp : Bool) :
    ((headStability sq ps fvp = .notEnoughData ∨ headStability sq ps fvp = .heldTooBriefly) ↔
      ps.length ≤ 10) ∧
    (10 < ps.length →
      ((headStability sq ps fvp = .veryGood ↔
          totalDeviation sq ps ≤ HEAD_STABILITY_VERY_GOOD_THRESHOLD) ∧
        (headStability sq ps fvp = .moderate ↔
          (HEAD_STABILITY_VERY_GOOD_THRESHOLD < totalDeviation sq ps ∧
            totalDeviation sq ps ≤ HEAD_STABILITY_MODERATE_THRESHOLD)) ∧
        (headStability sq ps fvp = .unstable ↔
          HEAD_STABILITY_MODERATE_THRESHOLD < totalDeviation sq ps))) := by
  have hθ : HEAD_STABILITY_VERY_GOOD_THRESHOLD ≤ HEAD_STABILITY_MODERATE_THRESHOLD := by
    norm_num [HEAD_STABILITY_VERY_GOOD_THRESHOLD, HEAD_STABILITY_MODERATE_THRESHOLD]
  constructor
  · simp only [headStability]
    split_ifs with h10 hvg hmod hfvp
    · exact iff_of_false (by simp) (by omega)
    · exact iff_of_false (by simp) (by omega)
    · exact iff_of_false (by simp) (by omega)
    · exact iff_of_true (Or.inr rfl) (by omega)
    · exact iff_of_true (Or.inl rfl) (by omega)
  · intro h10
    simp only [headStability, if_pos h10]
    split_ifs with hvg hmod
    · refine ⟨iff_of_true rfl hvg, iff_of_false (by simp) ?_, iff_of_false (by simp) ?_⟩
      · rintro ⟨h1, -⟩; linarith
      · intro h1; linarith
    · push_neg at hvg
      refine ⟨iff_of_false (by simp) ?_, iff_of_true rfl ⟨hvg, hmod⟩,
        iff_of_false (by simp) ?_⟩
      · intro h1; linarith
      · intro h1; linarith
    · push_neg at hvg hmod
      refine ⟨iff_of_false (by simp) ?_, iff_of_false (by simp) ?_, iff_of_true rfl hmod⟩
      · intro h1; linarith
      · rintro ⟨-, h2⟩; linarith

/-- The deviation metric vanishes on constant zero samples. -/
theorem totalDeviation_replicate_zero (n : ℕ) :
    totalDeviation id (List.replicate n ((0 : ℚ), (0 : ℚ))) = 0 := by
  simp [totalDeviation, stdDev, listMean]

/-- Witness for C5 at a concrete input: 11 identical samples classify as
very good (total deviation 0). -/
theorem C5_witness :
    headStability id (List.replicate 11 ((0 : ℚ), (0 : ℚ))) true = .veryGood := by
  have h := C5_head_stability_boundary id (List.replicate 11 ((0 : ℚ), (0 : ℚ))) true
  refine ((h.2 (by simp)).1).mpr ?_
  rw [totalDeviation_replicate_zero]
  norm_num [HEAD_STABILITY_VERY_GOOD_THRESHOLD]

/-- C5 counterexample: with exactly 10 collected samples the source still
reports the insufficient-data verdict ("Pose held too briefly to measure"),
while the claim's boundary (`headStabilitySpec`, 10 or more samples suffice)
classifies the same data as very good.  The square-root parameter is only
applied at 0 here, where every square root agrees. -/
theorem C5_counterexample :
    headStability id (List.replicate 10 ((0 : ℚ), (0 : ℚ))) true = .heldTooBriefly ∧
    10 ≤ (List.replicate 10 ((0 : ℚ), (0 : ℚ))).length ∧
    headStabilitySpec id (List.replicate 10 ((0 : ℚ), (0 : ℚ))) = .veryGood := by
  refine ⟨by simp [headStability], by simp, ?_⟩
  unfold headStabilitySpec
  rw [if_neg (by simp),
    if_pos (by rw [totalDeviation_replicate_zero]
               norm_num [HEAD_STABILITY_VERY_GOOD_THRESHOLD])]

/-- C4 (amended): for the high-leg march evaluator, whenever some frame of
the session has a nonzero per-frame failure count, the failure exemplar
retained by the fold is a frame whose nonzero failure count equals the
minimum nonzero failure count over the session, and among frames achieving
that minimum it is the most recent one (replacement on `<=`); for the
salute evaluator the exemplar likewise achieves the minimum nonzero count
but, with the strict `<` replacement, it is the EARLIEST such frame; the
turn evaluator replaces on strictly greater counts, so its exemplar need
not achieve the minimum at all (see the counterexample). -/
theorem C4_failure_exemplar_minimal (atan2d : ℚ → ℚ → ℚ) :
    (∀ frames : List (Option HLFrame),
      (∃ k n, hlFailCountAt atan2d frames k = some n ∧ 0 < n) →
      ∃ j m, (hlAggregate atan2d frames).bestFailureIdx = some j ∧
        hlFailCountAt atan2d frames j = some m ∧ 0 < m ∧
        (∀ k n, hlFailCountAt atan2d frames k = some n → 0 < n → m ≤ n) ∧
        (∀ k n, hlFailCountAt atan2d frames k = some n → n = m → k ≤ j)) ∧
    (∀ frames : List (Option SaluteFrame),
      (∃ k n, saluteFailCountAt atan2d frames k = some n ∧ 0 < n) →
      ∃ j m, (saluteAggregate atan2d frames).bestFailureIdx = some j ∧
        saluteFailCountAt atan2d frames j = some m ∧ 0 < m ∧
        (∀ k n, saluteFailCountAt atan2d frames k = some n → 0 < n → m ≤ n) ∧
        (∀ k n, saluteFailCountAt atan2d frames k = some n → n = m → j ≤ k)) := by
  constructor
  · rintro frames ⟨k0, n0, hk0, hn0⟩
    have hpost := hlAggregateFrom_tracking atan2d frames frames 0 HLState.init rfl
      (Or.inl ⟨rfl, rfl, fun k n hk _ => absurd hk (Nat.not_lt_zero k)⟩)
    rcases hpost with ⟨_, _, hall⟩ | ⟨j, m, hb, _, _, hmp, hcj, hmin, hrec⟩
    · have hk0len := hlFailCountAt_lt_length atan2d frames k0 n0 hk0
      have := hall k0 n0 (by omega) hk0
      omega
    · exact ⟨j, m, hb, hcj, hmp,
        fun k n hkc h0 =>
          hmin k n (by have := hlFailCountAt_lt_length atan2d frames k n hkc; omega) hkc h0,
        fun k n hkc hnm =>
          hrec k n (by have := hlFailCountAt_lt_length atan2d frames k n hkc; omega) hkc hnm⟩
  · rintro frames ⟨k0, n0, hk0, hn0⟩
    have hpost := saluteAggregateFrom_tracking atan2d frames frames 0 SaluteState.init rfl
      (Or.inl ⟨rfl, rfl, fun k n hk _ => absurd hk (Nat.not_lt_zero k)⟩)
    rcases hpost with ⟨_, _, hall⟩ | ⟨j, m, hb, _, _, hmp, hcj, hmin, hrec⟩
    · have hk0len := saluteFailCountAt_lt_length atan2d frames k0 n0 hk0
      have := hall k0 n0 (by omega) hk0
      omega
    · exact ⟨j, m, hb, hcj, hmp,
        fun k n hkc h0 =>
          hmin k n (by have := saluteFailCountAt_lt_length atan2d frames k n hkc; omega)
            hkc h0,
        fun k n hkc hnm =>
          hrec k n (by have := saluteFailCountAt_lt_length atan2d frames k n hkc; omega)
            hkc hnm⟩

/-- Witness for C4 at a concrete one-frame session: `hlFailFrame` fails
exactly the FOOT_ANGLE check (count 1), so the exemplar is frame 0 with
the minimum nonzero count 1. -/
theorem C4_witness :
    ∃ j m, (hlAggregate atan2dAxes [some hlFailFrame]).bestFailureIdx = some j ∧
      hlFailCountAt atan2dAxes [some hlFailFrame] j = some m ∧ 0 < m ∧
      (∀ k n, hlFailCountAt atan2dAxes [some hlFailFrame] k = some n → 0 < n → m ≤ n) ∧
      (∀ k n, hlFailCountAt atan2dAxes [some hlFailFrame] k = some n → n = m → k ≤ j) :=
  (C4_failure_exemplar_minimal atan2dAxes).1 [some hlFailFrame]
    ⟨0, 1, by
      norm_num [hlFailCountAt, getPostureFeedback, HLFrame.lowVis, hlFailFrame, hlPassFrame,
        calculate_angle, atan2dAxes, Landmark.pt, HIGH_LEG_Y_TOLERANCE,
        HIP_FLEXION_ANGLE_RANGE, KNEE_BEND_ANGLE_RANGE, STATIONARY_LEG_STRAIGHT,
        FOOT_ANGLE_RANGE, HLFlags.failPoints], by omega⟩

end NCC
